import Mathlib

/-!
# Falcor: GPU resource and descriptor abstraction layer

A shallow embedding of

* `Framework/Source/API/Texture.cpp`
* `Framework/Source/API/Vulkan/VKTexture.cpp`
* `Framework/Source/API/Vulkan/VKComputeContext.cpp`
* `Framework/Source/API/D3D/D3D12/LowLevel/D3D12DescriptorPool.cpp`
* `Framework/Source/Core/ProgramVersion.cpp`

`uint32_t` values are natural numbers, reduced modulo `2 ^ 32` wherever the
source can wrap.  A null pointer is `none`.  Calls into the native API, the
logger and collaborators that live in other files are either parameters of the
embedding or events appended to an explicit trace.
-/

set_option linter.dupNamespace false
set_option linter.unusedVariables false

namespace Falcor

/-! ## Machine integers -/

/-- Reduction of an arithmetic result to `uint32_t`. -/
def wrap32 (n : Nat) : Nat := n % 2 ^ 32

/-! ## Logger -/

/-- One diagnostic emitted through the logging functions of the framework.
`shouldNotGetHere` is the diagnostic of the `should_not_get_here()` marker. -/
inductive LogEntry where
  | warning (msg : String)
  | error (msg : String)
  | shouldNotGetHere
  deriving DecidableEq, Repr

/-! ## Texture.cpp -/

/-- The enumeration `Texture::Type`, as named in `Texture.cpp` and `VKTexture.cpp`. -/
inductive TextureType where
  | Texture1D
  | Texture2D
  | Texture3D
  | TextureCube
  | Texture2DMultisample
  deriving DecidableEq, Repr

/-- The enumeration `VkImageType` of the Vulkan headers. -/
inductive VkImageType where
  | VK_IMAGE_TYPE_1D
  | VK_IMAGE_TYPE_2D
  | VK_IMAGE_TYPE_3D
  deriving DecidableEq, Repr

/-- The values of `VkImageLayout` that the sources name. -/
inductive VkImageLayout where
  | VK_IMAGE_LAYOUT_UNDEFINED
  | VK_IMAGE_LAYOUT_PREINITIALIZED
  | VK_IMAGE_LAYOUT_TRANSFER_DST_OPTIMAL
  deriving DecidableEq, Repr

/-- The `VkExtent3D` structure of the Vulkan headers. -/
structure VkExtent3D where
  width : Nat
  height : Nat
  depth : Nat
  deriving DecidableEq, Repr

/-- The fields of `VkImageCreateInfo` that `Texture::initResource` fills in with
a value that depends on the texture (the remaining fields are constants). -/
structure VkImageCreateInfo where
  imageType : VkImageType
  format : Nat
  flags : Nat
  extent : VkExtent3D
  arrayLayers : Nat
  mipLevels : Nat
  samples : Nat
  usage : Nat
  initialLayout : VkImageLayout
  deriving DecidableEq, Repr

/-- Everything the texture sources use that is declared outside them: constants
of `Texture.h` and `Resource.h`, format helpers, the native image-creation call,
the floating-point part of `getMaxMipCount`, and the indeterminate values of the
two locals that the sources read without initialising them. -/
structure Env where
  /-- The sentinel `Texture::kMaxPossible`. -/
  kMaxPossible : Nat
  /-- The bit `Resource::BindFlags::RenderTarget`. -/
  RenderTarget : Nat
  /-- The bit `Resource::BindFlags::DepthStencil`. -/
  DepthStencil : Nat
  /-- The bit `Resource::BindFlags::ShaderResource`. -/
  ShaderResource : Nat
  /-- The helper `is_set(value, flag)` of the framework. -/
  is_set : Nat → Nat → Bool
  /-- The helper `align_to(alignment, value)` of the framework. -/
  align_to : Nat → Nat → Nat
  /-- The helper `getVkFormat`. -/
  getVkFormat : Nat → Nat
  /-- The helper `getFormatWidthCompressionRatio`. -/
  getFormatWidthCompressionRatio : Nat → Nat
  /-- The helper `getFormatHeightCompressionRatio`. -/
  getFormatHeightCompressionRatio : Nat → Nat
  /-- The value of `uint32_t(glm::log2(float(n)))` for a `uint32_t` value `n`. -/
  log2Float : Nat → Nat
  /-- The call `vkCreateImage`: `none` when `VK_FAILED` holds of its result,
  otherwise the (non-null) image handle it stored. -/
  vkCreateImage : VkImageCreateInfo → Option Nat
  /-- The indeterminate initial value of the local `bits` in `Texture::Texture`. -/
  bitsUninit : Nat
  /-- The indeterminate initial value of the local `vkFlags` in `getVkImageUsageFlags`. -/
  vkFlagsUninit : Nat

/-- The state of a `Texture` object: the members of the `Resource` base that the
sources touch (`mType`, `mBindFlags`, `mApiHandle`) and the members of `Texture`. -/
structure Texture where
  mType : TextureType
  mBindFlags : Nat
  mApiHandle : Option Nat
  mWidth : Nat
  mHeight : Nat
  mDepth : Nat
  mMipLevels : Nat
  mSampleCount : Nat
  mArraySize : Nat
  mFormat : Nat
  deriving DecidableEq, Repr

/-- The bit scan behind the intrinsic `_BitScanReverse`: looks at bit `i`, then
at the bits below it, and stops at the first one that is set. -/
def bitScanFrom (mask : Nat) : Nat → Option Nat
  | 0 => if mask.testBit 0 then some 0 else none
  | i + 1 => if mask.testBit (i + 1) then some (i + 1) else bitScanFrom mask i

/-- The compiler intrinsic `_BitScanReverse(&Index, Mask)` on a 32-bit mask:
searches from bit 31 down to bit 0 for a set bit.  The result is the pair of the
returned flag and the value of `Index` after the call; when the mask is zero no
bit is found and `Index` keeps the value it had. -/
def _BitScanReverse (index : Nat) (mask : Nat) : Bool × Nat :=
  match bitScanFrom mask 31 with
  | some i => (true, i)
  | none => (false, index)

/-- `updateBindFlags` of `Texture.cpp`. -/
def updateBindFlags (env : Env) (flags : Nat) (hasInitData : Bool) (mipLevels : Nat) : Nat :=
  if mipLevels ≠ env.kMaxPossible ∨ hasInitData = false then
    flags
  else
    flags ||| env.RenderTarget

/-- The constructor `Texture::Texture`.  `Texture::apiInit`, called last, has an
empty body in `VKTexture.cpp`. -/
def Texture.Texture (env : Env) (width height depth arraySize mipLevels sampleCount : Nat)
    (format : Nat) (type : TextureType) (bindFlags : Nat) : Falcor.Texture :=
  let mMipLevels :=
    if mipLevels = env.kMaxPossible then
      let dims := width ||| height ||| depth
      let bits := (_BitScanReverse env.bitsUninit dims).2
      wrap32 (bits + 1)
    else
      mipLevels
  { mType := type
    mBindFlags := bindFlags
    mApiHandle := none
    mWidth := width
    mHeight := height
    mDepth := depth
    mMipLevels := mMipLevels
    mSampleCount := sampleCount
    mArraySize := arraySize
    mFormat := format }

/-! ## VKTexture.cpp -/

/-- The constant `VK_IMAGE_USAGE_SAMPLED_BIT` of the Vulkan headers. -/
def VK_IMAGE_USAGE_SAMPLED_BIT : Nat := 0x4

/-- The constant `VK_IMAGE_USAGE_COLOR_ATTACHMENT_BIT` of the Vulkan headers. -/
def VK_IMAGE_USAGE_COLOR_ATTACHMENT_BIT : Nat := 0x10

/-- The constant `VK_IMAGE_USAGE_DEPTH_STENCIL_ATTACHMENT_BIT` of the Vulkan headers. -/
def VK_IMAGE_USAGE_DEPTH_STENCIL_ATTACHMENT_BIT : Nat := 0x20

/-- The constant `VK_IMAGE_CREATE_CUBE_COMPATIBLE_BIT` of the Vulkan headers. -/
def VK_IMAGE_CREATE_CUBE_COMPATIBLE_BIT : Nat := 0x10

/-- `getVkImageUsageFlags` of `VKTexture.cpp`: the value it returns.  The local
`vkFlags` has no initialiser, so the three `|=` start from an indeterminate
value.  The `assert(vkFlags != 0)` before the `return` does not change the
returned value. -/
def getVkImageUsageFlags (env : Env) (bindFlags : Nat) : Nat :=
  let vkFlags := env.vkFlagsUninit
  let vkFlags :=
    if env.is_set bindFlags env.DepthStencil then
      vkFlags ||| VK_IMAGE_USAGE_DEPTH_STENCIL_ATTACHMENT_BIT
    else vkFlags
  let vkFlags :=
    if env.is_set bindFlags env.ShaderResource = false then
      vkFlags ||| VK_IMAGE_USAGE_SAMPLED_BIT
    else vkFlags
  let vkFlags :=
    if env.is_set bindFlags env.RenderTarget then
      vkFlags ||| VK_IMAGE_USAGE_COLOR_ATTACHMENT_BIT
    else vkFlags
  vkFlags

/-- `getMaxMipCount` of `VKTexture.cpp`. -/
def getMaxMipCount (env : Env) (size : VkExtent3D) : Nat :=
  wrap32 (1 + env.log2Float (max (max size.width size.height) size.depth))

/-- `getVkImageType` of `VKTexture.cpp`. -/
def getVkImageType : TextureType → VkImageType
  | .Texture1D => .VK_IMAGE_TYPE_1D
  | .Texture2D => .VK_IMAGE_TYPE_2D
  | .Texture2DMultisample => .VK_IMAGE_TYPE_2D
  | .TextureCube => .VK_IMAGE_TYPE_2D
  | .Texture3D => .VK_IMAGE_TYPE_3D

/-- The `VkImageCreateInfo` that `Texture::initResource` hands to `vkCreateImage`. -/
def initResourceImageInfo (env : Env) (t : Texture) (pData : Option Nat) : VkImageCreateInfo :=
  let extent : VkExtent3D :=
    { width := env.align_to (env.getFormatWidthCompressionRatio t.mFormat) t.mWidth
      height := env.align_to (env.getFormatHeightCompressionRatio t.mFormat) t.mHeight
      depth := t.mDepth }
  { imageType := getVkImageType t.mType
    format := env.getVkFormat t.mFormat
    flags := if t.mType = TextureType.TextureCube then VK_IMAGE_CREATE_CUBE_COMPATIBLE_BIT else 0
    extent := extent
    arrayLayers := t.mArraySize
    mipLevels := min t.mMipLevels (getMaxMipCount env extent)
    samples := t.mSampleCount
    usage := getVkImageUsageFlags env t.mBindFlags
    initialLayout :=
      if pData ≠ none then VkImageLayout.VK_IMAGE_LAYOUT_PREINITIALIZED
      else VkImageLayout.VK_IMAGE_LAYOUT_UNDEFINED }

/-- `Texture::initResource` of `VKTexture.cpp`: the texture after the call and
the diagnostics it logged.  The parameter `autoGenMips` is not read by the body. -/
def Texture.initResource (env : Env) (t : Falcor.Texture) (pData : Option Nat)
    (autoGenMips : Bool) : Falcor.Texture × List LogEntry :=
  match env.vkCreateImage (initResourceImageInfo env t pData) with
  | none => (t, [LogEntry.error "Failed to create texture."])
  | some image => ({ t with mApiHandle := some image }, [])

/-! ## Texture.cpp: the factories -/

/-- What a factory leaves behind: the object it allocated with `new Texture`
(in its state after `initResource`), the shared pointer it returns (`none` is
`nullptr`), and the diagnostics logged on the way. -/
structure Created where
  pTexture : Texture
  result : Option Texture
  log : List LogEntry
  deriving DecidableEq, Repr

/-- The last two statements shared by the five factories: run `initResource` on
the new object and return it if `mApiHandle` is set, `nullptr` otherwise. -/
def finishCreate (env : Env) (pTexture : Texture) (pData : Option Nat) (autoGenMips : Bool) :
    Created :=
  let r := pTexture.initResource env pData autoGenMips
  { pTexture := r.1
    result := if r.1.mApiHandle ≠ none then some r.1 else none
    log := r.2 }

/-- `Texture::create1D`. -/
def Texture.create1D (env : Env) (width : Nat) (format : Nat) (arraySize mipLevels : Nat)
    (pData : Option Nat) (bindFlags : Nat) : Created :=
  let bindFlags := updateBindFlags env bindFlags (pData ≠ none) mipLevels
  let pTexture :=
    Texture.Texture env width 1 1 arraySize mipLevels 1 format TextureType.Texture1D bindFlags
  finishCreate env pTexture pData (mipLevels = env.kMaxPossible)

/-- `Texture::create2D`. -/
def Texture.create2D (env : Env) (width height : Nat) (format : Nat) (arraySize mipLevels : Nat)
    (pData : Option Nat) (bindFlags : Nat) : Created :=
  let bindFlags := updateBindFlags env bindFlags (pData ≠ none) mipLevels
  let pTexture :=
    Texture.Texture env width height 1 arraySize mipLevels 1 format TextureType.Texture2D bindFlags
  finishCreate env pTexture pData (mipLevels = env.kMaxPossible)

/-- `Texture::create3D`.  The parameter `isSparse` is not read by the body. -/
def Texture.create3D (env : Env) (width height depth : Nat) (format : Nat) (mipLevels : Nat)
    (pData : Option Nat) (bindFlags : Nat) (isSparse : Bool) : Created :=
  let bindFlags := updateBindFlags env bindFlags (pData ≠ none) mipLevels
  let pTexture :=
    Texture.Texture env width height depth 1 mipLevels 1 format TextureType.Texture3D bindFlags
  finishCreate env pTexture pData (mipLevels = env.kMaxPossible)

/-- `Texture::createCube`. -/
def Texture.createCube (env : Env) (width height : Nat) (format : Nat)
    (arraySize mipLevels : Nat) (pData : Option Nat) (bindFlags : Nat) : Created :=
  let bindFlags := updateBindFlags env bindFlags (pData ≠ none) mipLevels
  let pTexture :=
    Texture.Texture env width height 1 arraySize mipLevels 1 format TextureType.TextureCube
      bindFlags
  finishCreate env pTexture pData (mipLevels = env.kMaxPossible)

/-- `Texture::create2DMS`. -/
def Texture.create2DMS (env : Env) (width height : Nat) (format : Nat)
    (sampleCount arraySize : Nat) (bindFlags : Nat) : Created :=
  let pTexture :=
    Texture.Texture env width height 1 arraySize 1 sampleCount format
      TextureType.Texture2DMultisample bindFlags
  finishCreate env pTexture none false

/-- The flag set `flags` includes every bit of `sub`. -/
def hasFlags (flags sub : Nat) : Prop := flags &&& sub = sub

/-- The bind flags that the factory passed to `new Texture`, and the bind flags
of the texture it returned (if any), include `sub`. -/
def Created.bindFlagsInclude (c : Created) (sub : Nat) : Prop :=
  hasFlags c.pTexture.mBindFlags sub ∧ ∀ t, c.result = some t → hasFlags t.mBindFlags sub

/-- How the outcome `c` of a factory follows the native image creation for the
object `newTexture` that the factory allocated: null if `vkCreateImage` failed,
the object holding the created handle if it succeeded, and never an object whose
`mApiHandle` is unset. -/
def Created.followsImageCreation (env : Env) (newTexture : Texture) (pData : Option Nat)
    (c : Created) : Prop :=
  (env.vkCreateImage (initResourceImageInfo env newTexture pData) = none → c.result = none) ∧
  (∀ image, env.vkCreateImage (initResourceImageInfo env newTexture pData) = some image →
    c.result = some { newTexture with mApiHandle := some image }) ∧
  (∀ t, c.result = some t → t.mApiHandle ≠ none)

/-! ## Single-precision conversion -/

/-- The conversion `float(n)` of a `uint32_t` under IEEE 754 binary32 with the
default rounding (to nearest, ties to even), as the integer the resulting float
denotes: exact below `2 ^ 24`, otherwise rounded to a multiple of the spacing
`2 ^ (floor(log2 n) - 23)` of the floats around `n`. -/
def floatOfUint32 (n : Nat) : Nat :=
  if n < 2 ^ 24 then n
  else
    let ulp := 2 ^ (Nat.log2 n - 23)
    let q := n / ulp
    let r := n % ulp
    if 2 * r < ulp then q * ulp
    else if ulp < 2 * r then (q + 1) * ulp
    else if q % 2 = 0 then q * ulp
    else (q + 1) * ulp

/-- The expression `uint32_t(glm::log2(float(n)))` for a non-zero `uint32_t`
`n`, with a correctly rounded single-precision logarithm.  Let `x` be the
converted value and `2 ^ k ≤ x < 2 ^ (k + 1)`, so that the logarithm lies in
`[k, k + 1)`.  With `2 ^ p ≤ k < 2 ^ (p + 1)` the floats just below `k + 1` are
`2 ^ (p - 23)` apart, so the logarithm rounds to `k + 1` exactly when it lies
above `k + 1 - 2 ^ (p - 24)`, that is when `2 ^ ((k + 1) * N - 1) < x ^ N` for
`N = 2 ^ (24 - p)`; the truncation to `uint32_t` is then `k + 1`, and `k`
otherwise (always `k` when `x` is a power of two). -/
def log2FloatIEEE (n : Nat) : Nat :=
  let x := floatOfUint32 n
  let k := Nat.log2 x
  let N := 2 ^ (24 - Nat.log2 k)
  if 2 ^ ((k + 1) * N - 1) < x ^ N then k + 1 else k

/-- The macro `align_to(alignment, value)` of the framework on `uint32_t`
operands, `((value + alignment - 1) / alignment) * alignment`, with the addition,
the subtraction and the multiplication taken modulo `2 ^ 32` (adding `2 ^ 32 - 1`
is subtracting 1 modulo `2 ^ 32`).  A zero alignment divides by zero in the
source and is outside the model. -/
def align_to_uint32 (alignment value : Nat) : Nat :=
  wrap32 (wrap32 (value + alignment + (2 ^ 32 - 1)) / alignment * alignment)

/-- An environment for evaluating the embedding on concrete inputs: the enum
values of `Resource.h` (`ShaderResource = 0x10`, `RenderTarget = 0x40`,
`DepthStencil = 0x80`), `kMaxPossible = uint32_t(-1)`, the macro `align_to`, an
uncompressed format, the single-precision logarithm, and a device on which every
image creation succeeds with handle 1. -/
def sampleEnv : Env :=
  { kMaxPossible := 4294967295
    RenderTarget := 0x40
    DepthStencil := 0x80
    ShaderResource := 0x10
    is_set := fun v f => (v &&& f) != 0
    align_to := align_to_uint32
    getVkFormat := fun f => f
    getFormatWidthCompressionRatio := fun _ => 1
    getFormatHeightCompressionRatio := fun _ => 1
    log2Float := log2FloatIEEE
    vkCreateImage := fun _ => some 1
    bitsUninit := 0
    vkFlagsUninit := 0 }

/-- The environment `sampleEnv` on a device on which every image creation fails. -/
def failingEnv : Env :=
  { sampleEnv with vkCreateImage := fun _ => none }

/-! ## D3D12DescriptorPool.cpp -/

/-- The enumeration `DescriptorPool::Type`, which indexes `mDesc.mDescCount`. -/
inductive DescriptorType where
  | Cbv
  | Srv
  | Uav
  | Dsv
  | Rtv
  | Sampler
  deriving DecidableEq, Repr

/-- The constant `D3D12_DESCRIPTOR_HEAP_TYPE_CBV_SRV_UAV` of the Direct3D 12 headers. -/
def D3D12_DESCRIPTOR_HEAP_TYPE_CBV_SRV_UAV : Nat := 0

/-- The constant `D3D12_DESCRIPTOR_HEAP_TYPE_SAMPLER` of the Direct3D 12 headers. -/
def D3D12_DESCRIPTOR_HEAP_TYPE_SAMPLER : Nat := 1

/-- The constant `D3D12_DESCRIPTOR_HEAP_TYPE_RTV` of the Direct3D 12 headers. -/
def D3D12_DESCRIPTOR_HEAP_TYPE_RTV : Nat := 2

/-- The constant `D3D12_DESCRIPTOR_HEAP_TYPE_DSV` of the Direct3D 12 headers. -/
def D3D12_DESCRIPTOR_HEAP_TYPE_DSV : Nat := 3

/-- The constant `D3D12_DESCRIPTOR_HEAP_TYPE_NUM_TYPES` of the Direct3D 12 headers,
the length of the arrays `descCount` and `pHeaps`. -/
def D3D12_DESCRIPTOR_HEAP_TYPE_NUM_TYPES : Nat := 4

/-- The member `mDesc` of a `DescriptorPool`: a `uint32_t` count per descriptor
type and the shader-visible flag. -/
structure DescriptorPoolDesc where
  mDescCount : DescriptorType → Nat
  mShaderVisible : Bool

/-- One call `D3D12DescriptorHeap::create(type, descCount, shaderVisible)`. -/
structure HeapCreateCall where
  type : Nat
  descCount : Nat
  shaderVisible : Bool
  deriving DecidableEq, Repr

/-- The outcome of `DescriptorPool::apiInit`: the returned flag, the array
`mpApiData->pHeaps` (a null entry is `none`), and the calls of
`D3D12DescriptorHeap::create` in the order they were made. -/
structure ApiInitResult where
  ret : Bool
  pHeaps : Nat → Option Nat
  calls : List HeapCreateCall

/-- The local array `descCount` of `DescriptorPool::apiInit` after the six
assignments that fill it (the two `+=` are `uint32_t` additions). -/
def apiInitDescCount (mDesc : DescriptorPoolDesc) : Nat → Nat :=
  let descCount : Nat → Nat := fun _ => 0
  let descCount :=
    Function.update descCount D3D12_DESCRIPTOR_HEAP_TYPE_RTV (mDesc.mDescCount .Rtv)
  let descCount :=
    Function.update descCount D3D12_DESCRIPTOR_HEAP_TYPE_DSV (mDesc.mDescCount .Dsv)
  let descCount :=
    Function.update descCount D3D12_DESCRIPTOR_HEAP_TYPE_SAMPLER (mDesc.mDescCount .Sampler)
  let descCount :=
    Function.update descCount D3D12_DESCRIPTOR_HEAP_TYPE_CBV_SRV_UAV (mDesc.mDescCount .Cbv)
  let descCount :=
    Function.update descCount D3D12_DESCRIPTOR_HEAP_TYPE_CBV_SRV_UAV
      (wrap32 (descCount D3D12_DESCRIPTOR_HEAP_TYPE_CBV_SRV_UAV + mDesc.mDescCount .Uav))
  let descCount :=
    Function.update descCount D3D12_DESCRIPTOR_HEAP_TYPE_CBV_SRV_UAV
      (wrap32 (descCount D3D12_DESCRIPTOR_HEAP_TYPE_CBV_SRV_UAV + mDesc.mDescCount .Srv))
  descCount

/-- The `for` loop of `DescriptorPool::apiInit` from index `i` on, with `n`
iterations left before `i` reaches the array size.  `create` is
`D3D12DescriptorHeap::create`, which returns a heap (here its handle) or null. -/
def apiInitLoop (create : Nat → Nat → Bool → Option Nat) (descCount : Nat → Nat)
    (mShaderVisible : Bool) :
    Nat → Nat → (Nat → Option Nat) → List HeapCreateCall → ApiInitResult
  | _, 0, pHeaps, calls => { ret := true, pHeaps := pHeaps, calls := calls }
  | i, n + 1, pHeaps, calls =>
    if descCount i ≠ 0 then
      let heap := create i (descCount i) mShaderVisible
      let pHeaps := Function.update pHeaps i heap
      let calls := calls ++ [{ type := i, descCount := descCount i, shaderVisible := mShaderVisible }]
      match heap with
      | none => { ret := false, pHeaps := pHeaps, calls := calls }
      | some _ => apiInitLoop create descCount mShaderVisible (i + 1) n pHeaps calls
    else
      apiInitLoop create descCount mShaderVisible (i + 1) n pHeaps calls

/-- `DescriptorPool::apiInit` of `D3D12DescriptorPool.cpp`. -/
def DescriptorPool.apiInit (create : Nat → Nat → Bool → Option Nat) (mDesc : DescriptorPoolDesc) :
    ApiInitResult :=
  apiInitLoop create (apiInitDescCount mDesc) mDesc.mShaderVisible 0
    D3D12_DESCRIPTOR_HEAP_TYPE_NUM_TYPES (fun _ => none) []

/-- The entry of `descCount` (and of `pHeaps`) that `DescriptorPool::apiInit`
adds the count of a descriptor type to. -/
def heapTypeOf : DescriptorType → Nat
  | .Rtv => D3D12_DESCRIPTOR_HEAP_TYPE_RTV
  | .Dsv => D3D12_DESCRIPTOR_HEAP_TYPE_DSV
  | .Sampler => D3D12_DESCRIPTOR_HEAP_TYPE_SAMPLER
  | .Cbv => D3D12_DESCRIPTOR_HEAP_TYPE_CBV_SRV_UAV
  | .Uav => D3D12_DESCRIPTOR_HEAP_TYPE_CBV_SRV_UAV
  | .Srv => D3D12_DESCRIPTOR_HEAP_TYPE_CBV_SRV_UAV

/-- The summed count of a physical heap category as the specification words it:
the RTV, DSV and Sampler categories have the count of their own kind, the shared
CBV_SRV_UAV category has the sum of the three counts, here reduced to 32 bits. -/
def categoryCount (mDesc : DescriptorPoolDesc) (heapType : Nat) : Nat :=
  if heapType = D3D12_DESCRIPTOR_HEAP_TYPE_RTV then mDesc.mDescCount .Rtv
  else if heapType = D3D12_DESCRIPTOR_HEAP_TYPE_DSV then mDesc.mDescCount .Dsv
  else if heapType = D3D12_DESCRIPTOR_HEAP_TYPE_SAMPLER then mDesc.mDescCount .Sampler
  else if heapType = D3D12_DESCRIPTOR_HEAP_TYPE_CBV_SRV_UAV then
    (mDesc.mDescCount .Cbv + mDesc.mDescCount .Srv + mDesc.mDescCount .Uav) % 2 ^ 32
  else 0

/-- A pool description is well-formed when each count is a `uint32_t`. -/
def DescriptorPoolDesc.wellFormed (mDesc : DescriptorPoolDesc) : Prop :=
  ∀ k, mDesc.mDescCount k < 2 ^ 32

/-- A heap factory that always succeeds; the handle encodes the heap type. -/
def createAlways : Nat → Nat → Bool → Option Nat :=
  fun type _ _ => some (100 + type)

/-- A heap factory that fails for sampler heaps and succeeds for the others. -/
def createNoSampler : Nat → Nat → Bool → Option Nat :=
  fun type _ _ => if type = D3D12_DESCRIPTOR_HEAP_TYPE_SAMPLER then none else some (100 + type)

/-- A pool description by its six counts. -/
def mkDesc (cbv srv uav dsv rtv sampler : Nat) (shaderVisible : Bool) : DescriptorPoolDesc :=
  { mDescCount := fun
      | .Cbv => cbv
      | .Srv => srv
      | .Uav => uav
      | .Dsv => dsv
      | .Rtv => rtv
      | .Sampler => sampler
    mShaderVisible := shaderVisible }

/-! ## ProgramVersion.cpp -/

/-- The enumeration `ShaderType`, which indexes `ProgramVersion::mpShaders`. -/
inductive ShaderType where
  | Vertex
  | Fragment
  | Geometry
  | Domain
  | Hull
  deriving DecidableEq, Repr

/-- The state of a `ProgramVersion` object that `ProgramVersion.cpp` touches.  A
shader and a reflection object are represented by their addresses. -/
structure ProgramVersion where
  mName : String
  mpShaders : ShaderType → Option Nat
  mpReflector : Option Nat

/-- The two collaborators that `ProgramVersion::create` calls. -/
inductive ProgramCall where
  | apiInit
  | reflectionCreate
  deriving DecidableEq, Repr

/-- The collaborators of `ProgramVersion::create`, which are defined in other
files.  `apiInit` is `ProgramVersion::apiInit(log, name)`: the returned flag and
the log after the call.  `reflectionCreate` is `ProgramReflection::create(pProgram,
log)`: the returned pointer and the log after the call. -/
structure ProgramBackend where
  apiInit : ProgramVersion → String → String → Bool × String
  reflectionCreate : ProgramVersion → String → Option Nat × String

/-- The outcome of `ProgramVersion::create`: the returned pointer, the string
`log` after the call, and the collaborators called, in order. -/
structure ProgramCreateResult where
  result : Option ProgramVersion
  log : String
  calls : List ProgramCall

/-- The constructor `ProgramVersion::ProgramVersion`. -/
def ProgramVersion.ProgramVersion (pVS pFS pGS pHS pDS : Option Nat) (name : String) :
    Falcor.ProgramVersion :=
  let mpShaders : ShaderType → Option Nat := fun _ => none
  let mpShaders := Function.update mpShaders ShaderType.Vertex pVS
  let mpShaders := Function.update mpShaders ShaderType.Fragment pFS
  let mpShaders := Function.update mpShaders ShaderType.Geometry pGS
  let mpShaders := Function.update mpShaders ShaderType.Domain pDS
  let mpShaders := Function.update mpShaders ShaderType.Hull pHS
  { mName := name, mpShaders := mpShaders, mpReflector := none }

/-- `ProgramVersion::create` of `ProgramVersion.cpp`. -/
def ProgramVersion.create (backend : ProgramBackend) (pVS pFS pGS pHS pDS : Option Nat)
    (log : String) (name : String) : ProgramCreateResult :=
  if pVS = none then
    { result := none
      log := "Program " ++ name ++ " doesn't contain a vertex-shader. This is illegal."
      calls := [] }
  else
    let pProgram := ProgramVersion.ProgramVersion pVS pFS pGS pHS pDS name
    let init := backend.apiInit pProgram log name
    if init.1 = false then
      { result := none, log := init.2, calls := [ProgramCall.apiInit] }
    else
      let refl := backend.reflectionCreate pProgram init.2
      { result := some { pProgram with mpReflector := refl.1 }
        log := refl.2
        calls := [ProgramCall.apiInit, ProgramCall.reflectionCreate] }

/-- A backend whose `apiInit` succeeds and whose reflection fails with a message. -/
def reflectionFails : ProgramBackend :=
  { apiInit := fun _ log _ => (true, log)
    reflectionCreate := fun _ _ => (none, "reflection failed") }

/-! ## VKComputeContext.cpp -/

/-- The enumeration `VkResourceType`, the tag of a Vulkan resource or view handle. -/
inductive VkResourceType where
  | None
  | Image
  | Buffer
  deriving DecidableEq, Repr

/-- The members of a `Buffer` that `clearUAV` reads. -/
structure Buffer where
  apiHandle : Nat
  gpuAddressOffset : Nat
  size : Nat
  deriving DecidableEq, Repr

/-- The object behind a `Resource*`: a `Buffer`, or another resource of which
only the native handle is read. -/
inductive Resource where
  | buffer (b : Buffer)
  | other (apiHandle : Nat)
  deriving DecidableEq, Repr

/-- `Resource::getApiHandle`. -/
def Resource.getApiHandle : Resource → Nat
  | .buffer b => b.apiHandle
  | .other h => h

/-- The cast `dynamic_cast<const Buffer*>(pResource)`: null unless the object is a `Buffer`. -/
def Resource.asBuffer : Resource → Option Buffer
  | .buffer b => some b
  | .other _ => none

/-- The members of a view's `getViewInfo()` that `clearColorImageCommon` reads. -/
structure ViewInfo where
  firstArraySlice : Nat
  arraySize : Nat
  mostDetailedMip : Nat
  mipCount : Nat
  deriving DecidableEq, Repr

/-- A resource view as `VKComputeContext.cpp` sees it: the type tag of
`getApiHandle()`, the resource of `getResource()` and `getViewInfo()`. -/
structure ResourceView where
  apiHandleType : VkResourceType
  resource : Resource
  viewInfo : ViewInfo
  deriving DecidableEq, Repr

/-- A four-component clear value (`vec4` or `uvec4`) as its four 32-bit words;
`clearColorImageCommon` copies them with `memcpy_s` and never interprets them. -/
structure Vec4 where
  x : Nat
  y : Nat
  z : Nat
  w : Nat
  deriving DecidableEq, Repr

/-- The values of `Resource::State` that `VKComputeContext.cpp` names. -/
inductive ResourceState where
  | CopyDest
  | IndirectArg
  deriving DecidableEq, Repr

/-- The constant `VK_IMAGE_ASPECT_COLOR_BIT` of the Vulkan headers. -/
def VK_IMAGE_ASPECT_COLOR_BIT : Nat := 0x1

/-- The `VkImageSubresourceRange` structure of the Vulkan headers. -/
structure VkImageSubresourceRange where
  aspectMask : Nat
  baseMipLevel : Nat
  levelCount : Nat
  baseArrayLayer : Nat
  layerCount : Nat
  deriving DecidableEq, Repr

/-- A call recorded by the context: `resourceBarrier` of `CopyContext`, or a
Vulkan command on the context's command list. -/
inductive Command where
  | resourceBarrier (pResource : Resource) (newState : ResourceState)
  | vkCmdClearColorImage (image : Nat) (imageLayout : VkImageLayout) (color : Vec4)
      (range : VkImageSubresourceRange)
  | vkCmdFillBuffer (dstBuffer : Nat) (dstOffset : Nat) (size : Nat) (data : Nat)
  deriving DecidableEq, Repr

/-- The state of a `ComputeContext` that `clearUAV` touches: the flag
`mCommandsPending` and the calls recorded so far, oldest first. -/
structure ComputeContext where
  mCommandsPending : Bool
  recorded : List Command
  deriving DecidableEq, Repr

/-- The warning of `clearColorImageCommon`. -/
def clearBufferWarning : String :=
  "Looks like you are trying to clear a buffer. Vulkan only supports clearing Buffers with a single uint value. Please use the uint version of clearUav(). Call is ignored"

/-- The warning of `ComputeContext::clearUAV` for a `uvec4` value. -/
def nonUniformWarning : String :=
  "Vulkan buffer clears only support a single element. A vector was supplied which has different elements per channel. only `x` will be used'"

/-- `clearColorImageCommon` of `VKComputeContext.cpp`: the context after the call
and the diagnostics logged.  `should_not_get_here()` is followed by `return`, so
control leaves the function there. -/
def clearColorImageCommon (pCtx : ComputeContext) (pView : ResourceView) (clearVal : Vec4) :
    ComputeContext × List LogEntry :=
  if pView.apiHandleType ≠ VkResourceType.Image then
    (pCtx, [LogEntry.warning clearBufferWarning, LogEntry.shouldNotGetHere])
  else
    let pCtx :=
      { pCtx with
        recorded := pCtx.recorded ++ [Command.resourceBarrier pView.resource ResourceState.CopyDest] }
    let colVal := clearVal
    let viewInfo := pView.viewInfo
    let range : VkImageSubresourceRange :=
      { baseArrayLayer := viewInfo.firstArraySlice
        baseMipLevel := viewInfo.mostDetailedMip
        layerCount := viewInfo.arraySize
        levelCount := viewInfo.mipCount
        aspectMask := VK_IMAGE_ASPECT_COLOR_BIT }
    ({ pCtx with
        recorded := pCtx.recorded ++
          [Command.vkCmdClearColorImage pView.resource.getApiHandle
            VkImageLayout.VK_IMAGE_LAYOUT_TRANSFER_DST_OPTIMAL colVal range] }, [])

/-- `ComputeContext::clearUAV(const UnorderedAccessView*, const vec4&)`. -/
def ComputeContext.clearUAV_vec4 (self : ComputeContext) (pUav : ResourceView) (value : Vec4) :
    ComputeContext × List LogEntry :=
  let r := clearColorImageCommon self pUav value
  ({ r.1 with mCommandsPending := true }, r.2)

/-- `ComputeContext::clearUAV(const UnorderedAccessView*, const uvec4&)`.  The
result is `none` when the `dynamic_cast` yields null and the null pointer is
dereferenced.  In the condition of the warning `&&` binds tighter than `||`. -/
def ComputeContext.clearUAV_uvec4 (self : ComputeContext) (pUav : ResourceView) (value : Vec4) :
    Option (ComputeContext × List LogEntry) :=
  if pUav.apiHandleType = VkResourceType.Buffer then
    let log :=
      if value.x ≠ value.y ∨ (value.x ≠ value.z ∧ value.x ≠ value.w) then
        [LogEntry.warning nonUniformWarning]
      else []
    match pUav.resource.asBuffer with
    | none => none
    | some pBuffer =>
      some ({ mCommandsPending := true
              recorded := self.recorded ++
                [Command.vkCmdFillBuffer pBuffer.apiHandle pBuffer.gpuAddressOffset pBuffer.size
                  value.x] }, log)
  else
    let r := clearColorImageCommon self pUav value
    some ({ r.1 with mCommandsPending := true }, r.2)

/-- A view of a buffer, for evaluating the embedding on concrete inputs. -/
def sampleBufferView : ResourceView :=
  { apiHandleType := VkResourceType.Buffer
    resource := Resource.buffer { apiHandle := 11, gpuAddressOffset := 0, size := 256 }
    viewInfo := { firstArraySlice := 0, arraySize := 1, mostDetailedMip := 0, mipCount := 1 } }

/-- A context with nothing recorded and no commands pending. -/
def idleContext : ComputeContext :=
  { mCommandsPending := false, recorded := [] }

/-- The call that the loop of `apiInit` makes at index `j`. -/
def heapCall (descCount : Nat → Nat) (vis : Bool) (j : Nat) : HeapCreateCall :=
  { type := j, descCount := descCount j, shaderVisible := vis }

/-- The calls that `m` iterations from index `i` make: one per index with a
non-zero count, in increasing order. -/
def heapCalls (descCount : Nat → Nat) (vis : Bool) (i m : Nat) : List HeapCreateCall :=
  ((List.range' i m).filter (fun j => decide (descCount j ≠ 0))).map (heapCall descCount vis)

/-! ## Texture.cpp and VKTexture.cpp: data size -/

/-- `Texture::getMipLevelDataSize` of `VKTexture.cpp`, whose body is `return 0;`. -/
def Texture.getMipLevelDataSize (t : Falcor.Texture) (mipLevel : Nat) : Nat := 0

/-- The `for` loop of `Texture::getDataSize` with `n` iterations left, the
counter at `l` and the accumulator at `res`; `res +=` is a `uint32_t` addition. -/
def getDataSizeLoop (getMipLevelDataSize : Nat → Nat) : Nat → Nat → Nat → Nat
  | 0, _, res => res
  | n + 1, l, res =>
    getDataSizeLoop getMipLevelDataSize n (l + 1) (wrap32 (res + getMipLevelDataSize l))

/-- The body of `Texture::getDataSize` over the per-level size function that the
backend links in and the member `mMipLevels`. -/
def getDataSizeWith (getMipLevelDataSize : Nat → Nat) (mMipLevels : Nat) : Nat :=
  getDataSizeLoop getMipLevelDataSize mMipLevels 0 0

/-- `Texture::getDataSize` of `Texture.cpp`, over `Texture::getMipLevelDataSize`
of `VKTexture.cpp`. -/
def Texture.getDataSize (t : Falcor.Texture) : Nat :=
  getDataSizeWith t.getMipLevelDataSize t.mMipLevels

/-- A 4 x 4 texture with one mip level, for evaluating the embedding. -/
def sampleTexture : Texture :=
  { mType := TextureType.Texture2D
    mBindFlags := 0x10
    mApiHandle := some 1
    mWidth := 4
    mHeight := 4
    mDepth := 1
    mMipLevels := 1
    mSampleCount := 1
    mArraySize := 1
    mFormat := 0 }

/-- The environment `sampleEnv`, under the name that points at its
single-precision logarithm. -/
def ieeeEnv : Env :=
  { sampleEnv with log2Float := log2FloatIEEE }

/-- The environment `ieeeEnv` with a block-compressed format of 4 x 4 blocks. -/
def blockEnv : Env :=
  { ieeeEnv with
    getFormatWidthCompressionRatio := fun _ => 4
    getFormatHeightCompressionRatio := fun _ => 4 }

/-- A heap factory that always fails. -/
def createNever : Nat → Nat → Bool → Option Nat :=
  fun _ _ _ => none

/-- A view of an image, for evaluating the embedding on concrete inputs. -/
def sampleImageView : ResourceView :=
  { apiHandleType := VkResourceType.Image
    resource := Resource.other 21
    viewInfo := { firstArraySlice := 2, arraySize := 3, mostDetailedMip := 1, mipCount := 4 } }

/-! # Lemmas -/

/-! ## Bit-scan lemmas -/

theorem two_pow_le_of_testBit {m i : Nat} (h : m.testBit i = true) : 2 ^ i ≤ m := by
  by_contra hlt
  have := Nat.testBit_lt_two_pow (Nat.lt_of_not_le hlt)
  simp [h] at this

theorem lt_two_pow_of_testBit_false {m i : Nat} (hlt : m < 2 ^ (i + 1))
    (h : m.testBit i = false) : m < 2 ^ i := by
  apply Nat.lt_pow_two_of_testBit
  intro j hj
  rcases Nat.eq_or_lt_of_le hj with rfl | hj
  · exact h
  · exact Nat.testBit_lt_two_pow
      (Nat.lt_of_lt_of_le hlt (Nat.pow_le_pow_right (by decide) hj))

theorem log2_eq_of_bounds {m k : Nat} (hlo : 2 ^ k ≤ m) (hhi : m < 2 ^ (k + 1)) :
    Nat.log2 m = k := by
  have hm : m ≠ 0 := by
    have := Nat.two_pow_pos k
    omega
  have h1 := (Nat.le_log2 hm (k := k)).2 hlo
  have h2 := (Nat.log2_lt hm (k := k + 1)).2 hhi
  omega

theorem bitScanFrom_eq_log2 (m : Nat) (hm : m ≠ 0) :
    ∀ i, m < 2 ^ (i + 1) → bitScanFrom m i = some (Nat.log2 m) := by
  intro i
  induction i with
  | zero =>
    intro hlt
    have h1 : m = 1 := by omega
    subst h1
    rw [log2_eq_of_bounds (k := 0) (by decide) (by decide)]
    rfl
  | succ i ih =>
    intro hlt
    unfold bitScanFrom
    by_cases hb : m.testBit (i + 1) = true
    · rw [if_pos hb, log2_eq_of_bounds (two_pow_le_of_testBit hb) hlt]
    · rw [if_neg hb]
      exact ih (lt_two_pow_of_testBit_false hlt (by simpa using hb))

theorem dims_bounds (w h d : Nat) (hne : ¬(w = 0 ∧ h = 0 ∧ d = 0)) :
    2 ^ Nat.log2 (max w (max h d)) ≤ w ||| h ||| d ∧
      w ||| h ||| d < 2 ^ (Nat.log2 (max w (max h d)) + 1) := by
  have hM : max w (max h d) ≠ 0 := by omega
  have hlo := Nat.log2_self_le hM
  have hhi := Nat.lt_log2_self (n := max w (max h d))
  have hw : w < 2 ^ (Nat.log2 (max w (max h d)) + 1) := by omega
  have hh : h < 2 ^ (Nat.log2 (max w (max h d)) + 1) := by omega
  have hd : d < 2 ^ (Nat.log2 (max w (max h d)) + 1) := by omega
  have hor : w ||| h ||| d < 2 ^ (Nat.log2 (max w (max h d)) + 1) :=
    Nat.or_lt_two_pow (Nat.or_lt_two_pow hw hh) hd
  have hbit : (max w (max h d)).testBit (Nat.log2 (max w (max h d))) = true := by
    by_contra hb
    have := lt_two_pow_of_testBit_false hhi (by simpa using hb)
    omega
  have hbit2 : (w ||| h ||| d).testBit (Nat.log2 (max w (max h d))) = true := by
    simp only [Nat.testBit_or, Bool.or_eq_true]
    rcases Nat.le_total w (max h d) with h1 | h1
    · rw [Nat.max_eq_right h1] at hbit ⊢
      rcases Nat.le_total h d with h2 | h2
      · rw [Nat.max_eq_right h2] at hbit ⊢
        exact Or.inr hbit
      · rw [Nat.max_eq_left h2] at hbit ⊢
        exact Or.inl (Or.inr hbit)
    · rw [Nat.max_eq_left h1] at hbit ⊢
      exact Or.inl (Or.inl hbit)
  exact ⟨two_pow_le_of_testBit hbit2, hor⟩

theorem log2_or_eq_log2_max (w h d : Nat) (hne : ¬(w = 0 ∧ h = 0 ∧ d = 0)) :
    Nat.log2 (w ||| h ||| d) = Nat.log2 (max w (max h d)) :=
  log2_eq_of_bounds (dims_bounds w h d hne).1 (dims_bounds w h d hne).2

theorem bitScanReverse_dims (index w h d : Nat) (hw : w < 2 ^ 32) (hh : h < 2 ^ 32)
    (hd : d < 2 ^ 32) (hne : ¬(w = 0 ∧ h = 0 ∧ d = 0)) :
    _BitScanReverse index (w ||| h ||| d) = (true, Nat.log2 (max w (max h d))) := by
  have hor : w ||| h ||| d < 2 ^ (31 + 1) := Nat.or_lt_two_pow (Nat.or_lt_two_pow hw hh) hd
  have hne0 : w ||| h ||| d ≠ 0 := by
    have h1 := (dims_bounds w h d hne).1
    have h2 := Nat.two_pow_pos (Nat.log2 (max w (max h d)))
    omega
  unfold _BitScanReverse
  rw [bitScanFrom_eq_log2 _ hne0 31 hor, log2_or_eq_log2_max w h d hne]

/-! ## The heap-creation loop -/

theorem heapCalls_succ_zero {dc : Nat → Nat} {vis : Bool} {i m : Nat} (h : dc i = 0) :
    heapCalls dc vis i (m + 1) = heapCalls dc vis (i + 1) m := by
  simp [heapCalls, List.range'_succ, h]

theorem heapCalls_succ_pos {dc : Nat → Nat} {vis : Bool} {i m : Nat} (h : dc i ≠ 0) :
    heapCalls dc vis i (m + 1) = heapCall dc vis i :: heapCalls dc vis (i + 1) m := by
  simp [heapCalls, List.range'_succ, h]

theorem mem_heapCalls {dc : Nat → Nat} {vis : Bool} {i m : Nat} {c : HeapCreateCall} :
    c ∈ heapCalls dc vis i m ↔
      (i ≤ c.type ∧ c.type < i + m ∧ dc c.type ≠ 0) ∧ c = heapCall dc vis c.type := by
  simp only [heapCalls, List.mem_map, List.mem_filter, List.mem_range'_1, decide_eq_true_eq]
  constructor
  · rintro ⟨j, ⟨⟨h1, h2⟩, h3⟩, rfl⟩
    exact ⟨⟨h1, h2, h3⟩, rfl⟩
  · rintro ⟨⟨h1, h2, h3⟩, h4⟩
    exact ⟨c.type, ⟨⟨h1, h2⟩, h3⟩, h4.symm⟩

/-- What the loop of `apiInit` does: it runs `m` of its `n` iterations, makes the
calls of those iterations, stores their heaps, and stops early exactly at a
failed creation. -/
theorem apiInitLoop_spec (create : Nat → Nat → Bool → Option Nat) (dc : Nat → Nat)
    (vis : Bool) :
    ∀ (n i : Nat) (pH : Nat → Option Nat) (cs : List HeapCreateCall),
      ∃ m, m ≤ n ∧
        (apiInitLoop create dc vis i n pH cs).calls = cs ++ heapCalls dc vis i m ∧
        (∀ j, (apiInitLoop create dc vis i n pH cs).pHeaps j =
          if i ≤ j ∧ j < i + m ∧ dc j ≠ 0 then create j (dc j) vis else pH j) ∧
        (∀ j, i ≤ j → j + 1 < i + m → dc j ≠ 0 → create j (dc j) vis ≠ none) ∧
        ((apiInitLoop create dc vis i n pH cs).ret = true →
          m = n ∧ ∀ j, i ≤ j → j < i + n → dc j ≠ 0 → create j (dc j) vis ≠ none) ∧
        ((apiInitLoop create dc vis i n pH cs).ret = false →
          0 < m ∧ dc (i + m - 1) ≠ 0 ∧ create (i + m - 1) (dc (i + m - 1)) vis = none) := by
  intro n
  induction n with
  | zero =>
    intro i pH cs
    refine ⟨0, Nat.le_refl 0, ?_, ?_, ?_, ?_, ?_⟩
    · simp [apiInitLoop, heapCalls]
    · intro j
      have h0 : ¬(i ≤ j ∧ j < i + 0 ∧ dc j ≠ 0) := by omega
      rw [if_neg h0]
      rfl
    · intro j h1 h2
      omega
    · intro _
      refine ⟨rfl, ?_⟩
      intro j h1 h2
      omega
    · intro h
      simp [apiInitLoop] at h
  | succ n ih =>
    intro i pH cs
    by_cases hz : dc i = 0
    · obtain ⟨m, hm, hcalls, hheaps, hpre, htrue, hfalse⟩ := ih (i + 1) pH cs
      have hstep : apiInitLoop create dc vis i (n + 1) pH cs =
          apiInitLoop create dc vis (i + 1) n pH cs := by
        simp [apiInitLoop, hz]
      rw [hstep]
      refine ⟨m + 1, by omega, ?_, ?_, ?_, ?_, ?_⟩
      · rw [hcalls, heapCalls_succ_zero hz]
      · intro j
        rw [hheaps j]
        by_cases hj : j = i
        · subst hj
          have h1 : ¬(j + 1 ≤ j ∧ j < j + 1 + m ∧ dc j ≠ 0) := by omega
          have h2 : ¬(j ≤ j ∧ j < j + (m + 1) ∧ dc j ≠ 0) := by
            intro h
            exact h.2.2 hz
          rw [if_neg h1, if_neg h2]
        · have hiff : (i + 1 ≤ j ∧ j < i + 1 + m ∧ dc j ≠ 0) ↔
              (i ≤ j ∧ j < i + (m + 1) ∧ dc j ≠ 0) := by
            constructor <;> rintro ⟨a, b, c⟩ <;> exact ⟨by omega, by omega, c⟩
          simp only [hiff]
      · intro j h1 h2 h3
        have hj : j ≠ i := fun h => h3 (h ▸ hz)
        exact hpre j (by omega) (by omega) h3
      · intro h
        obtain ⟨h1, h2⟩ := htrue h
        refine ⟨by omega, ?_⟩
        intro j hj1 hj2 hj3
        have hj : j ≠ i := fun h => hj3 (h ▸ hz)
        exact h2 j (by omega) (by omega) hj3
      · intro h
        obtain ⟨h1, h2, h3⟩ := hfalse h
        have he : i + (m + 1) - 1 = i + 1 + m - 1 := by omega
        rw [he]
        exact ⟨by omega, h2, h3⟩
    · cases hc : create i (dc i) vis with
      | none =>
        have hstep : apiInitLoop create dc vis i (n + 1) pH cs =
            { ret := false, pHeaps := Function.update pH i none,
              calls := cs ++ [heapCall dc vis i] } := by
          simp [apiInitLoop, hz, hc, heapCall]
        rw [hstep]
        refine ⟨1, by omega, ?_, ?_, ?_, ?_, ?_⟩
        · have := @heapCalls_succ_pos dc vis i 0 hz
          simp only [Nat.zero_add] at this
          rw [this]
          simp [heapCalls]
        · intro j
          by_cases hj : j = i
          · subst hj
            have h2 : (j ≤ j ∧ j < j + 1 ∧ dc j ≠ 0) := ⟨Nat.le_refl j, by omega, hz⟩
            simp [h2, hc]
          · have h2 : ¬(i ≤ j ∧ j < i + 1 ∧ dc j ≠ 0) := by omega
            simp [h2, Function.update_noteq hj]
        · intro j h1 h2
          omega
        · intro h
          simp at h
        · intro _
          refine ⟨by omega, ?_, ?_⟩
          · simpa using hz
          · simpa using hc
      | some heap =>
        obtain ⟨m, hm, hcalls, hheaps, hpre, htrue, hfalse⟩ :=
          ih (i + 1) (Function.update pH i (some heap)) (cs ++ [heapCall dc vis i])
        have hstep : apiInitLoop create dc vis i (n + 1) pH cs =
            apiInitLoop create dc vis (i + 1) n (Function.update pH i (some heap))
              (cs ++ [heapCall dc vis i]) := by
          simp [apiInitLoop, hz, hc, heapCall]
        rw [hstep]
        refine ⟨m + 1, by omega, ?_, ?_, ?_, ?_, ?_⟩
        · rw [hcalls, heapCalls_succ_pos hz]
          simp
        · intro j
          rw [hheaps j]
          by_cases hj : j = i
          · subst hj
            have h1 : ¬(j + 1 ≤ j ∧ j < j + 1 + m ∧ dc j ≠ 0) := by omega
            have h2 : (j ≤ j ∧ j < j + (m + 1) ∧ dc j ≠ 0) := ⟨Nat.le_refl j, by omega, hz⟩
            rw [if_neg h1, if_pos h2, hc]
            simp
          · have hiff : (i + 1 ≤ j ∧ j < i + 1 + m ∧ dc j ≠ 0) ↔
                (i ≤ j ∧ j < i + (m + 1) ∧ dc j ≠ 0) := by
              constructor <;> rintro ⟨a, b, c⟩ <;> exact ⟨by omega, by omega, c⟩
            simp only [hiff, Function.update_noteq hj]
        · intro j h1 h2 h3
          by_cases hj : j = i
          · subst hj
            rw [hc]
            simp
          · exact hpre j (by omega) (by omega) h3
        · intro h
          obtain ⟨h1, h2⟩ := htrue h
          refine ⟨by omega, ?_⟩
          intro j hj1 hj2 hj3
          by_cases hj : j = i
          · subst hj
            rw [hc]
            simp
          · exact h2 j (by omega) (by omega) hj3
        · intro h
          obtain ⟨h1, h2, h3⟩ := hfalse h
          have he : i + (m + 1) - 1 = i + 1 + m - 1 := by omega
          rw [he]
          exact ⟨by omega, h2, h3⟩

/-! ## Bind flags -/

theorem hasFlags_or_right (flags sub : Nat) : hasFlags (flags ||| sub) sub := by
  apply Nat.eq_of_testBit_eq
  intro i
  simp only [Nat.testBit_and, Nat.testBit_or]
  cases flags.testBit i <;> cases sub.testBit i <;> rfl

theorem hasFlags_or_left (flags sub : Nat) : hasFlags (flags ||| sub) flags := by
  apply Nat.eq_of_testBit_eq
  intro i
  simp only [Nat.testBit_and, Nat.testBit_or]
  cases flags.testBit i <;> cases sub.testBit i <;> rfl

theorem updateBindFlags_full_chain (env : Env) (flags : Nat) :
    updateBindFlags env flags true env.kMaxPossible = flags ||| env.RenderTarget := by
  simp [updateBindFlags]

theorem finishCreate_bindFlags (env : Env) (t : Texture) (pData : Option Nat) (a : Bool) :
    (finishCreate env t pData a).pTexture.mBindFlags = t.mBindFlags := by
  unfold finishCreate Texture.initResource
  cases env.vkCreateImage (initResourceImageInfo env t pData) <;> rfl

theorem finishCreate_result (env : Env) (t : Texture) (pData : Option Nat) (a : Bool)
    (r : Texture) (h : (finishCreate env t pData a).result = some r) :
    r = (finishCreate env t pData a).pTexture := by
  unfold finishCreate at h ⊢
  simp only at h ⊢
  split at h
  · exact (Option.some.inj h).symm
  · cases h

theorem finishCreate_bindFlagsInclude (env : Env) (t : Texture) (pData : Option Nat) (a : Bool)
    (sub : Nat) (h : hasFlags t.mBindFlags sub) :
    (finishCreate env t pData a).bindFlagsInclude sub := by
  refine ⟨?_, ?_⟩
  · rw [finishCreate_bindFlags]
    exact h
  · intro r hr
    rw [finishCreate_result env t pData a r hr, finishCreate_bindFlags]
    exact h

theorem finishCreate_followsImageCreation (env : Env) (t : Texture) (pData : Option Nat)
    (a : Bool) (h : t.mApiHandle = none) :
    (finishCreate env t pData a).followsImageCreation env t pData := by
  unfold Created.followsImageCreation finishCreate Texture.initResource
  cases hc : env.vkCreateImage (initResourceImageInfo env t pData) with
  | none => simp [h]
  | some image => simp

/-! ## Descriptor counts -/

theorem apiInitDescCount_eq_categoryCount (mDesc : DescriptorPoolDesc) (t : Nat) (ht : t < 4) :
    apiInitDescCount mDesc t = categoryCount mDesc t := by
  have h4 : (2 : Nat) ^ 32 = 4294967296 := by norm_num
  interval_cases t <;>
    simp [apiInitDescCount, categoryCount, Function.update, wrap32,
      D3D12_DESCRIPTOR_HEAP_TYPE_RTV, D3D12_DESCRIPTOR_HEAP_TYPE_DSV,
      D3D12_DESCRIPTOR_HEAP_TYPE_SAMPLER, D3D12_DESCRIPTOR_HEAP_TYPE_CBV_SRV_UAV]
  omega

theorem apiInit_spec (create : Nat → Nat → Bool → Option Nat) (mDesc : DescriptorPoolDesc) :
    ∃ m, m ≤ 4 ∧
      (DescriptorPool.apiInit create mDesc).calls =
        heapCalls (apiInitDescCount mDesc) mDesc.mShaderVisible 0 m ∧
      (∀ j, (DescriptorPool.apiInit create mDesc).pHeaps j =
        if j < m ∧ apiInitDescCount mDesc j ≠ 0 then
          create j (apiInitDescCount mDesc j) mDesc.mShaderVisible
        else none) ∧
      (∀ j, j + 1 < m → apiInitDescCount mDesc j ≠ 0 →
        create j (apiInitDescCount mDesc j) mDesc.mShaderVisible ≠ none) ∧
      ((DescriptorPool.apiInit create mDesc).ret = true →
        m = 4 ∧ ∀ j, j < 4 → apiInitDescCount mDesc j ≠ 0 →
          create j (apiInitDescCount mDesc j) mDesc.mShaderVisible ≠ none) ∧
      ((DescriptorPool.apiInit create mDesc).ret = false →
        0 < m ∧ apiInitDescCount mDesc (m - 1) ≠ 0 ∧
          create (m - 1) (apiInitDescCount mDesc (m - 1)) mDesc.mShaderVisible = none) := by
  obtain ⟨m, hm, hcalls, hheaps, hpre, htrue, hfalse⟩ :=
    apiInitLoop_spec create (apiInitDescCount mDesc) mDesc.mShaderVisible 4 0 (fun _ => none) []
  refine ⟨m, hm, ?_, ?_, ?_, ?_, ?_⟩
  · simpa using hcalls
  · intro j
    have := hheaps j
    simpa using this
  · intro j h1 h2
    exact hpre j (Nat.zero_le j) (by omega) h2
  · intro h
    obtain ⟨h1, h2⟩ := htrue h
    exact ⟨h1, fun j hj hd => h2 j (Nat.zero_le j) (by omega) hd⟩
  · intro h
    have := hfalse h
    simpa using this

theorem filter_heapCalls_four (dc : Nat → Nat) (vis : Bool) (t : Nat) (ht : t < 4)
    (h : dc t ≠ 0) :
    (heapCalls dc vis 0 4).filter (fun c => decide (c.type = t)) = [heapCall dc vis t] := by
  have hr : List.range' 0 4 = [0, 1, 2, 3] := rfl
  unfold heapCalls
  rw [hr]
  interval_cases t <;> by_cases h0 : dc 0 = 0 <;> by_cases h1 : dc 1 = 0 <;>
    by_cases h2 : dc 2 = 0 <;> by_cases h3 : dc 3 = 0 <;>
    simp_all [List.filter, heapCall]

/-! ## Buffer clears -/

/-- On a buffer-backed view the `uvec4` `clearUAV` always records one fill whose
value is the component `x`, and logs nothing when the four components are equal. -/
theorem clearUAV_uvec4_buffer (self : ComputeContext) (pUav : ResourceView) (b : Buffer)
    (value : Vec4) (hType : pUav.apiHandleType = VkResourceType.Buffer)
    (hRes : pUav.resource = Resource.buffer b) :
    (∃ log, self.clearUAV_uvec4 pUav value =
      some ({ mCommandsPending := true
              recorded := self.recorded ++
                [Command.vkCmdFillBuffer b.apiHandle b.gpuAddressOffset b.size value.x] },
        log)) ∧
    (value.x = value.y ∧ value.x = value.z ∧ value.x = value.w →
      (self.clearUAV_uvec4 pUav value).map (fun r => r.2) = some []) := by
  constructor
  · simp [ComputeContext.clearUAV_uvec4, hType, hRes, Resource.asBuffer]
  · rintro ⟨h1, h2, h3⟩
    simp [ComputeContext.clearUAV_uvec4, hType, hRes, Resource.asBuffer, ← h1, ← h2]

/-! ## Image clears -/

theorem clearColorImageCommon_image (pCtx : ComputeContext) (pView : ResourceView)
    (clearVal : Vec4) (hType : pView.apiHandleType = VkResourceType.Image) :
    clearColorImageCommon pCtx pView clearVal =
      ({ pCtx with
          recorded := pCtx.recorded ++
            [Command.resourceBarrier pView.resource ResourceState.CopyDest,
             Command.vkCmdClearColorImage pView.resource.getApiHandle
               VkImageLayout.VK_IMAGE_LAYOUT_TRANSFER_DST_OPTIMAL clearVal
               { aspectMask := VK_IMAGE_ASPECT_COLOR_BIT
                 baseMipLevel := pView.viewInfo.mostDetailedMip
                 levelCount := pView.viewInfo.mipCount
                 baseArrayLayer := pView.viewInfo.firstArraySlice
                 layerCount := pView.viewInfo.arraySize }] }, []) := by
  simp [clearColorImageCommon, hType]

theorem clearUAV_uvec4_image (self : ComputeContext) (pUav : ResourceView) (value : Vec4)
    (hType : pUav.apiHandleType = VkResourceType.Image) :
    self.clearUAV_uvec4 pUav value =
      some ({ (clearColorImageCommon self pUav value).1 with mCommandsPending := true },
        (clearColorImageCommon self pUav value).2) := by
  have hne : ¬ pUav.apiHandleType = VkResourceType.Buffer := by
    rw [hType]
    decide
  simp only [ComputeContext.clearUAV_uvec4, if_neg hne]

/-! ## Data size -/

theorem getDataSizeLoop_eq (f : Nat → Nat) :
    ∀ (n l res : Nat), res < 2 ^ 32 →
      getDataSizeLoop f n l res = (res + ∑ i ∈ Finset.range n, f (l + i)) % 2 ^ 32 := by
  intro n
  induction n with
  | zero =>
    intro l res hres
    rw [getDataSizeLoop, Finset.sum_range_zero, Nat.add_zero, Nat.mod_eq_of_lt hres]
  | succ n ih =>
    intro l res _
    have hlt : wrap32 (res + f l) < 2 ^ 32 := Nat.mod_lt _ (by norm_num)
    rw [getDataSizeLoop, ih (l + 1) _ hlt, Finset.sum_range_succ', wrap32]
    have hsum : ∑ i ∈ Finset.range n, f (l + 1 + i) = ∑ i ∈ Finset.range n, f (l + (i + 1)) := by
      apply Finset.sum_congr rfl
      intro i _
      congr 1
      omega
    rw [hsum, Nat.add_zero, Nat.mod_add_mod]
    congr 1
    omega

theorem getDataSizeWith_eq_sum (f : Nat → Nat) (m : Nat) :
    getDataSizeWith f m = (∑ l ∈ Finset.range m, f l) % 2 ^ 32 := by
  unfold getDataSizeWith
  rw [getDataSizeLoop_eq f m 0 0 (by norm_num)]
  simp

theorem getDataSize_eq_zero (t : Texture) : t.getDataSize = 0 := by
  unfold Texture.getDataSize
  rw [getDataSizeWith_eq_sum]
  simp [Texture.getMipLevelDataSize]

/-! ## Image usage flags -/

/-- When only the two `|=` for `DepthStencil` and `RenderTarget` are skipped and
`ShaderResource` is set, `getVkImageUsageFlags` returns the value that `vkFlags`
happened to hold. -/
theorem getVkImageUsageFlags_shader_resource_only (env : Env) (bindFlags : Nat)
    (hDS : env.is_set bindFlags env.DepthStencil = false)
    (hSR : env.is_set bindFlags env.ShaderResource = true)
    (hRT : env.is_set bindFlags env.RenderTarget = false) :
    getVkImageUsageFlags env bindFlags = env.vkFlagsUninit := by
  simp [getVkImageUsageFlags, hDS, hSR, hRT]

/-! ## Mip levels -/

theorem finishCreate_mipLevels (env : Env) (t : Texture) (pData : Option Nat) (a : Bool) :
    (finishCreate env t pData a).pTexture.mMipLevels = t.mMipLevels := by
  unfold finishCreate Texture.initResource
  cases env.vkCreateImage (initResourceImageInfo env t pData) <;> rfl

theorem ctor_mipLevels_sentinel (env : Env) (width height depth : Nat)
    (hw : width < 2 ^ 32) (hh : height < 2 ^ 32) (hd : depth < 2 ^ 32)
    (hne : ¬(width = 0 ∧ height = 0 ∧ depth = 0))
    (arraySize sampleCount format bindFlags : Nat) (type : TextureType) :
    (Texture.Texture env width height depth arraySize env.kMaxPossible sampleCount format
      type bindFlags).mMipLevels = Nat.log2 (max width (max height depth)) + 1 := by
  have hlog : Nat.log2 (max width (max height depth)) < 32 := by
    have hM : max width (max height depth) ≠ 0 := by omega
    exact (Nat.log2_lt hM).2 (by omega)
  simp only [Texture.Texture, if_true,
    bitScanReverse_dims env.bitsUninit width height depth hw hh hd hne, wrap32]
  omega

theorem log2_le_log2_of_le {a b : Nat} (ha : a ≠ 0) (hab : a ≤ b) : Nat.log2 a ≤ Nat.log2 b := by
  have hb : b ≠ 0 := by omega
  exact (Nat.le_log2 hb).2 (Nat.le_trans (Nat.log2_self_le ha) hab)

/-! ## Single-precision conversion -/

theorem floatOfUint32_two_pow_25_sub_one : floatOfUint32 33554431 = 33554432 := by
  have hl : Nat.log2 33554431 = 24 := log2_eq_of_bounds (by decide) (by decide)
  unfold floatOfUint32
  rw [hl]
  decide

theorem ieeeEnv_log2Float : ieeeEnv.log2Float = log2FloatIEEE := rfl

theorem getMaxMipCount_mk (env : Env) (w h d : Nat) :
    getMaxMipCount env { width := w, height := h, depth := d } =
      wrap32 (1 + env.log2Float (max (max w h) d)) := rfl

theorem ctor_mipLevels_scan (env : Env) (w h d a s f b : Nat) (ty : TextureType) :
    (Texture.Texture env w h d a env.kMaxPossible s f ty b).mMipLevels =
      wrap32 ((_BitScanReverse env.bitsUninit (w ||| h ||| d)).2 + 1) := by
  simp [Texture.Texture]

theorem initResourceImageInfo_mipLevels (env : Env) (t : Texture) (pData : Option Nat) :
    (initResourceImageInfo env t pData).mipLevels =
      min t.mMipLevels (getMaxMipCount env (initResourceImageInfo env t pData).extent) := rfl

theorem initResourceImageInfo_extent (env : Env) (t : Texture) (pData : Option Nat) :
    (initResourceImageInfo env t pData).extent =
      { width := env.align_to (env.getFormatWidthCompressionRatio t.mFormat) t.mWidth
        height := env.align_to (env.getFormatHeightCompressionRatio t.mFormat) t.mHeight
        depth := t.mDepth } := rfl

/-- The conversion to `float` never leaves the binade of its argument: the result
lies between the largest power of two below `n` and the next power of two. -/
theorem floatOfUint32_bounds {n : Nat} (h0 : n ≠ 0) :
    2 ^ Nat.log2 n ≤ floatOfUint32 n ∧ floatOfUint32 n ≤ 2 ^ (Nat.log2 n + 1) := by
  have hlo := Nat.log2_self_le h0
  have hhi := Nat.lt_log2_self (n := n)
  unfold floatOfUint32
  by_cases hsmall : n < 2 ^ 24
  · rw [if_pos hsmall]
    exact ⟨hlo, Nat.le_of_lt hhi⟩
  · rw [if_neg hsmall]
    have hk : 24 ≤ Nat.log2 n := (Nat.le_log2 h0).2 (Nat.le_of_not_lt hsmall)
    have hulp : 0 < 2 ^ (Nat.log2 n - 23) := Nat.two_pow_pos _
    have h23 : 2 ^ Nat.log2 n = 2 ^ 23 * 2 ^ (Nat.log2 n - 23) := by
      rw [← Nat.pow_add]
      congr 1
      omega
    have h24 : 2 ^ (Nat.log2 n + 1) = 2 ^ 24 * 2 ^ (Nat.log2 n - 23) := by
      rw [← Nat.pow_add]
      congr 1
      omega
    have hq1 : 2 ^ 23 ≤ n / 2 ^ (Nat.log2 n - 23) := by
      rw [Nat.le_div_iff_mul_le hulp, ← h23]
      exact hlo
    have hq2 : n / 2 ^ (Nat.log2 n - 23) < 2 ^ 24 := by
      rw [Nat.div_lt_iff_lt_mul hulp, ← h24]
      exact hhi
    have hA : 2 ^ Nat.log2 n ≤ n / 2 ^ (Nat.log2 n - 23) * 2 ^ (Nat.log2 n - 23) := by
      rw [h23]
      exact Nat.mul_le_mul_right _ hq1
    have hB : (n / 2 ^ (Nat.log2 n - 23) + 1) * 2 ^ (Nat.log2 n - 23) ≤
        2 ^ (Nat.log2 n + 1) := by
      rw [h24]
      exact Nat.mul_le_mul_right _ hq2
    have hC : n / 2 ^ (Nat.log2 n - 23) * 2 ^ (Nat.log2 n - 23) ≤
        (n / 2 ^ (Nat.log2 n - 23) + 1) * 2 ^ (Nat.log2 n - 23) :=
      Nat.mul_le_mul_right _ (Nat.le_succ _)
    simp only []
    split_ifs
    · exact ⟨hA, Nat.le_trans hC hB⟩
    · exact ⟨Nat.le_trans hA hC, hB⟩
    · exact ⟨hA, Nat.le_trans hC hB⟩
    · exact ⟨Nat.le_trans hA hC, hB⟩


/-! ## Single-precision logarithm -/

theorem log2FloatIEEE_cases (n : Nat) :
    log2FloatIEEE n = Nat.log2 (floatOfUint32 n) ∨
      log2FloatIEEE n = Nat.log2 (floatOfUint32 n) + 1 := by
  unfold log2FloatIEEE
  simp only []
  split
  · exact Or.inr rfl
  · exact Or.inl rfl

/-- Where the converted value is a power of two the logarithm is exact. -/
theorem log2FloatIEEE_of_two_pow {n k : Nat} (h : floatOfUint32 n = 2 ^ k) :
    log2FloatIEEE n = k := by
  have hk : Nat.log2 (2 ^ k) = k :=
    log2_eq_of_bounds (Nat.le_refl _) (Nat.pow_lt_pow_right (by decide) (Nat.lt_succ_self k))
  unfold log2FloatIEEE
  simp only []
  rw [h, hk, ← Nat.pow_mul]
  have hN : 0 < 2 ^ (24 - Nat.log2 k) := Nat.two_pow_pos _
  have hexp : ¬((k + 1) * 2 ^ (24 - Nat.log2 k) - 1 < k * 2 ^ (24 - Nat.log2 k)) := by
    rw [Nat.add_mul, Nat.one_mul]
    generalize k * 2 ^ (24 - Nat.log2 k) = P
    generalize 2 ^ (24 - Nat.log2 k) = N at hN
    omega
  have hcond : ¬(2 ^ ((k + 1) * 2 ^ (24 - Nat.log2 k) - 1) < 2 ^ (k * 2 ^ (24 - Nat.log2 k))) := by
    intro hlt
    exact hexp ((Nat.pow_lt_pow_iff_right (by decide)).1 hlt)
  rw [if_neg hcond]

theorem log2FloatIEEE_two_pow_25_sub_one : log2FloatIEEE 33554431 = 25 := by
  apply log2FloatIEEE_of_two_pow
  rw [floatOfUint32_two_pow_25_sub_one]
  norm_num

/-- With the single-precision logarithm, `log2Float` is never below the integer
logarithm and never above 33 on a non-zero `uint32_t`. -/
theorem log2FloatIEEE_bounds {n : Nat} (h0 : n ≠ 0) (h32 : n < 2 ^ 32) :
    Nat.log2 n ≤ log2FloatIEEE n ∧ log2FloatIEEE n + 1 < 2 ^ 32 := by
  obtain ⟨hlo, hhi⟩ := floatOfUint32_bounds h0
  have hf0 : floatOfUint32 n ≠ 0 := by
    have := Nat.two_pow_pos (Nat.log2 n)
    omega
  have hk : Nat.log2 n < 32 := (Nat.log2_lt h0).2 h32
  have hge : Nat.log2 n ≤ Nat.log2 (floatOfUint32 n) := (Nat.le_log2 hf0).2 hlo
  have h33 : floatOfUint32 n < 2 ^ 33 := by
    have h1 : (2 : Nat) ^ (Nat.log2 n + 1) ≤ 2 ^ 32 := Nat.pow_le_pow_right (by decide) hk
    have h2 : (2 : Nat) ^ 32 < 2 ^ 33 := by norm_num
    omega
  have h3 : Nat.log2 (floatOfUint32 n) < 33 := (Nat.log2_lt hf0).2 h33
  have h4 : (34 : Nat) + 1 < 2 ^ 32 := by norm_num
  rcases log2FloatIEEE_cases n with h | h <;> rw [h] <;> constructor <;> omega

/-! ## Descriptor pool: categories -/

theorem heapTypeOf_lt (kind : DescriptorType) : heapTypeOf kind < 4 := by
  cases kind <;> decide

/-- The returned flag of `apiInit` in terms of the array `descCount` it filled. -/
theorem apiInit_ret_spec (create : Nat → Nat → Bool → Option Nat)
    (mDesc : DescriptorPoolDesc) :
    ((DescriptorPool.apiInit create mDesc).ret = true ↔
      ∀ t, t < D3D12_DESCRIPTOR_HEAP_TYPE_NUM_TYPES → apiInitDescCount mDesc t ≠ 0 →
        create t (apiInitDescCount mDesc t) mDesc.mShaderVisible ≠ none) ∧
    ((DescriptorPool.apiInit create mDesc).ret = false →
      ∃ k, k < D3D12_DESCRIPTOR_HEAP_TYPE_NUM_TYPES ∧
        apiInitDescCount mDesc k ≠ 0 ∧
        create k (apiInitDescCount mDesc k) mDesc.mShaderVisible = none ∧
        (∀ j, j < k → apiInitDescCount mDesc j ≠ 0 →
          create j (apiInitDescCount mDesc j) mDesc.mShaderVisible ≠ none) ∧
        (DescriptorPool.apiInit create mDesc).calls.getLast? =
          some { type := k, descCount := apiInitDescCount mDesc k,
                 shaderVisible := mDesc.mShaderVisible } ∧
        (∀ c ∈ (DescriptorPool.apiInit create mDesc).calls, c.type ≤ k) ∧
        (∀ j, k < j → (DescriptorPool.apiInit create mDesc).pHeaps j = none)) := by
  obtain ⟨m, hm, hcalls, hheaps, hpre, htrue, hfalse⟩ := apiInit_spec create mDesc
  have hfail : (DescriptorPool.apiInit create mDesc).ret = false →
      ∃ k, k < D3D12_DESCRIPTOR_HEAP_TYPE_NUM_TYPES ∧
        apiInitDescCount mDesc k ≠ 0 ∧
        create k (apiInitDescCount mDesc k) mDesc.mShaderVisible = none ∧
        (∀ j, j < k → apiInitDescCount mDesc j ≠ 0 →
          create j (apiInitDescCount mDesc j) mDesc.mShaderVisible ≠ none) ∧
        (DescriptorPool.apiInit create mDesc).calls.getLast? =
          some { type := k, descCount := apiInitDescCount mDesc k,
                 shaderVisible := mDesc.mShaderVisible } ∧
        (∀ c ∈ (DescriptorPool.apiInit create mDesc).calls, c.type ≤ k) ∧
        (∀ j, k < j → (DescriptorPool.apiInit create mDesc).pHeaps j = none) := by
    intro h
    obtain ⟨hpos, hdc, hnone⟩ := hfalse h
    obtain ⟨k, rfl⟩ : ∃ k, m = k + 1 := ⟨m - 1, by omega⟩
    simp only [Nat.add_sub_cancel] at hdc hnone
    refine ⟨k, by simp only [D3D12_DESCRIPTOR_HEAP_TYPE_NUM_TYPES]; omega, hdc, hnone, ?_, ?_, ?_, ?_⟩
    · intro j hj hd
      exact hpre j (by omega) hd
    · rw [hcalls]
      have hsplit : heapCalls (apiInitDescCount mDesc) mDesc.mShaderVisible 0 (k + 1) =
          heapCalls (apiInitDescCount mDesc) mDesc.mShaderVisible 0 k ++
            [heapCall (apiInitDescCount mDesc) mDesc.mShaderVisible k] := by
        unfold heapCalls
        rw [List.range'_concat, List.filter_append, List.map_append]
        have hk : 0 + 1 * k = k := by omega
        rw [hk]
        have hf : List.filter (fun j => decide (apiInitDescCount mDesc j ≠ 0)) [k] = [k] := by
          simp [List.filter, hdc]
        rw [hf]
        rfl
      rw [hsplit, List.getLast?_append]
      simp [heapCall]
    · intro c hc
      rw [hcalls] at hc
      have := (mem_heapCalls.1 hc).1.2.1
      omega
    · intro j hj
      rw [hheaps]
      have : ¬(j < k + 1 ∧ apiInitDescCount mDesc j ≠ 0) := by omega
      rw [if_neg this]
  refine ⟨⟨fun h => (htrue h).2, ?_⟩, hfail⟩
  intro hall
  cases hr : (DescriptorPool.apiInit create mDesc).ret with
  | true => rfl
  | false =>
    obtain ⟨k, hk, hdc, hnone, -⟩ := hfail hr
    exact absurd hnone (hall k hk hdc)

/-! ## Requested mip levels -/

/-- The count requested for the image equals the count that the constructor
resolved from the sentinel when the aligned width and height are not below the
originals and `log2Float` of the largest extent is at least its integer logarithm
and does not wrap. -/
theorem requested_eq_recorded (env : Env) (pData : Option Nat)
    (width height depth arraySize sampleCount format bindFlags : Nat) (type : TextureType)
    (hw : width < 2 ^ 32) (hh : height < 2 ^ 32) (hd : depth < 2 ^ 32)
    (hne : ¬(width = 0 ∧ height = 0 ∧ depth = 0))
    (haw : width ≤ env.align_to (env.getFormatWidthCompressionRatio format) width)
    (hah : height ≤ env.align_to (env.getFormatHeightCompressionRatio format) height)
    (hlog : Nat.log2 (max (max (env.align_to (env.getFormatWidthCompressionRatio format) width)
          (env.align_to (env.getFormatHeightCompressionRatio format) height)) depth) ≤
        env.log2Float (max (max (env.align_to (env.getFormatWidthCompressionRatio format) width)
          (env.align_to (env.getFormatHeightCompressionRatio format) height)) depth))
    (hwrap : env.log2Float
        (max (max (env.align_to (env.getFormatWidthCompressionRatio format) width)
          (env.align_to (env.getFormatHeightCompressionRatio format) height)) depth) + 1 <
        2 ^ 32) :
    (initResourceImageInfo env
      (Texture.Texture env width height depth arraySize env.kMaxPossible sampleCount format
        type bindFlags) pData).mipLevels =
    (Texture.Texture env width height depth arraySize env.kMaxPossible sampleCount format
      type bindFlags).mMipLevels := by
  have hrec := ctor_mipLevels_sentinel env width height depth hw hh hd hne arraySize
    sampleCount format bindFlags type
  have hext : (initResourceImageInfo env
      (Texture.Texture env width height depth arraySize env.kMaxPossible sampleCount format
        type bindFlags) pData).extent =
      { width := env.align_to (env.getFormatWidthCompressionRatio format) width
        height := env.align_to (env.getFormatHeightCompressionRatio format) height
        depth := depth } := by
    rw [initResourceImageInfo_extent]
    rfl
  rw [initResourceImageInfo_mipLevels, hext, getMaxMipCount_mk, hrec]
  have hM0 : max width (max height depth) ≠ 0 := by omega
  have hle : max width (max height depth) ≤
      max (max (env.align_to (env.getFormatWidthCompressionRatio format) width)
        (env.align_to (env.getFormatHeightCompressionRatio format) height)) depth := by
    omega
  have hmono := log2_le_log2_of_le hM0 hle
  have hnowrap : wrap32 (1 + env.log2Float
      (max (max (env.align_to (env.getFormatWidthCompressionRatio format) width)
        (env.align_to (env.getFormatHeightCompressionRatio format) height)) depth)) =
      1 + env.log2Float
        (max (max (env.align_to (env.getFormatWidthCompressionRatio format) width)
          (env.align_to (env.getFormatHeightCompressionRatio format) height)) depth) := by
    unfold wrap32
    exact Nat.mod_eq_of_lt (by omega)
  rw [hnowrap]
  exact Nat.min_eq_left (by omega)

theorem blockEnv_log2Float : blockEnv.log2Float = log2FloatIEEE := rfl

theorem log2FloatIEEE_four : log2FloatIEEE 4 = 2 := by
  apply log2FloatIEEE_of_two_pow
  unfold floatOfUint32
  rw [if_pos (by norm_num)]
  norm_num

/-! ## Where the single-precision logarithm rounds up -/

theorem pow_succ_le_bernoulli (b c : Nat) :
    ∀ N, (b + c) ^ (N + 1) ≤ b ^ (N + 1) + (N + 1) * c * (b + c) ^ N := by
  intro N
  induction N with
  | zero => simp
  | succ N ih =>
    have hpow : b ^ (N + 1) ≤ (b + c) ^ (N + 1) := Nat.pow_le_pow_left (Nat.le_add_right b c) _
    have h1 := Nat.mul_le_mul_right (b + c) ih
    have h2 := Nat.mul_le_mul_left c hpow
    have e1 : (b + c) ^ (N + 1 + 1) = (b + c) ^ (N + 1) * (b + c) := pow_succ _ _
    have e2 : b ^ (N + 1 + 1) = b ^ (N + 1) * b := pow_succ _ _
    have e3 : (b + c) ^ (N + 1) = (b + c) ^ N * (b + c) := pow_succ _ _
    rw [e1, e2]
    generalize (b + c) ^ (N + 1) = Z at *
    generalize b ^ (N + 1) = Y at *
    generalize (b + c) ^ N = X at *
    subst e3
    nlinarith [h1, h2]

/-- Bernoulli's inequality in the form the rounding test needs: a value within
`c` of `2 ^ (k + 1)`, with `2 * M * c ≤ 2 ^ (k + 1)`, has an `M`-th power of at
least half of `2 ^ ((k + 1) * M)`. -/
theorem half_pow_le (k c M : Nat) (hM : 0 < M) (hc : 2 * (M * c) ≤ 2 ^ (k + 1)) :
    2 ^ ((k + 1) * M - 1) ≤ (2 ^ (k + 1) - c) ^ M := by
  obtain ⟨N, rfl⟩ : ∃ N, M = N + 1 := ⟨M - 1, by omega⟩
  have hcle : c ≤ 2 ^ (k + 1) := by
    have : c ≤ (N + 1) * c := Nat.le_mul_of_pos_left c (Nat.succ_pos N)
    omega
  have hb := pow_succ_le_bernoulli (2 ^ (k + 1) - c) c N
  rw [Nat.sub_add_cancel hcle] at hb
  have hA : (2 ^ (k + 1)) ^ (N + 1) = 2 * 2 ^ ((k + 1) * (N + 1) - 1) := by
    have hpos : 0 < (k + 1) * (N + 1) := Nat.mul_pos (Nat.succ_pos k) (Nat.succ_pos N)
    have hE : (k + 1) * (N + 1) = ((k + 1) * (N + 1) - 1) + 1 := by omega
    rw [← Nat.pow_mul]
    conv_lhs => rw [hE]
    exact pow_succ' _ _
  have hB : 2 * ((N + 1) * c * (2 ^ (k + 1)) ^ N) ≤ (2 ^ (k + 1)) ^ (N + 1) := by
    have h := Nat.mul_le_mul_right ((2 ^ (k + 1)) ^ N) hc
    have e : (2 ^ (k + 1)) ^ (N + 1) = 2 ^ (k + 1) * (2 ^ (k + 1)) ^ N := pow_succ' _ _
    rw [e]
    calc 2 * ((N + 1) * c * (2 ^ (k + 1)) ^ N)
        = 2 * ((N + 1) * c) * (2 ^ (k + 1)) ^ N := by ring
      _ ≤ 2 ^ (k + 1) * (2 ^ (k + 1)) ^ N := h
  rw [hA] at hb hB
  generalize 2 ^ ((k + 1) * (N + 1) - 1) = H at *
  generalize (2 ^ (k + 1) - c) ^ (N + 1) = B at *
  generalize (N + 1) * c * (2 ^ (k + 1)) ^ N = T at *
  omega

/-- The logarithm rounds up to `k + 1` when the rounding test of `log2FloatIEEE`
holds for the converted value. -/
theorem log2FloatIEEE_of_rounds_up {n x k p : Nat} (hx : floatOfUint32 n = x)
    (hk : Nat.log2 x = k) (hp : 24 - Nat.log2 k = p)
    (hcond : 2 ^ ((k + 1) * 2 ^ p - 1) < x ^ 2 ^ p) : log2FloatIEEE n = k + 1 := by
  unfold log2FloatIEEE
  simp only []
  rw [hx, hk, hp, if_pos hcond]


/-- The rounding test of `log2FloatIEEE` holds for a value `x` within `c` of
`2 ^ (k + 1)` when `2 * 2 ^ p * c ≤ 2 ^ (k + 1)` and `x` is either above
`2 ^ (k + 1) - c` or odd. -/
theorem rounds_up_cond (k p c x : Nat) (hk : 0 < k) (hc : 2 * (2 ^ p * c) ≤ 2 ^ (k + 1))
    (hx : 2 ^ (k + 1) - c ≤ x) (hstrict : 2 ^ (k + 1) - c < x ∨ Odd x) :
    2 ^ ((k + 1) * 2 ^ p - 1) < x ^ 2 ^ p := by
  have hle := half_pow_le k c (2 ^ p) (Nat.two_pow_pos p) hc
  rcases hstrict with hlt | hodd
  · exact Nat.lt_of_le_of_lt hle
      (Nat.pow_lt_pow_left hlt (Nat.pos_iff_ne_zero.1 (Nat.two_pow_pos p)))
  · have hle2 : 2 ^ ((k + 1) * 2 ^ p - 1) ≤ x ^ 2 ^ p :=
      Nat.le_trans hle (Nat.pow_le_pow_left hx _)
    have hexp : (k + 1) * 2 ^ p - 1 ≠ 0 := by
      have h3 : k + 1 ≤ (k + 1) * 2 ^ p := Nat.le_mul_of_pos_right _ (Nat.two_pow_pos p)
      omega
    have heven : Even (2 ^ ((k + 1) * 2 ^ p - 1)) := Nat.even_pow.2 ⟨even_two, hexp⟩
    have hodd2 : Odd (x ^ 2 ^ p) := Odd.pow hodd
    have hne : 2 ^ ((k + 1) * 2 ^ p - 1) ≠ x ^ 2 ^ p := by
      intro heq
      rw [heq] at heven
      exact (Nat.not_even_iff_odd.2 hodd2) heven
    exact Nat.lt_of_le_of_ne hle2 hne

/-- Just below `2 ^ 21` the logarithm rounds up: `uint32_t(log2(2097151.0f))`
is 21, one more than the index of the highest set bit of 2097151. -/
theorem log2FloatIEEE_2097151 : log2FloatIEEE 2097151 = 21 := by
  have hx : floatOfUint32 2097151 = 2097151 := by
    unfold floatOfUint32
    rw [if_pos (by norm_num)]
  have hk : Nat.log2 2097151 = 20 := log2_eq_of_bounds (by norm_num) (by norm_num)
  have hp : 24 - Nat.log2 20 = 20 := by
    rw [log2_eq_of_bounds (k := 4) (by norm_num) (by norm_num)]
  exact @log2FloatIEEE_of_rounds_up 2097151 2097151 20 20 hx hk hp
    (rounds_up_cond 20 20 1 2097151 (by norm_num) (by norm_num) (by norm_num)
      (Or.inr ⟨1048575, by norm_num⟩))

/-- The same happens above `2 ^ 24`: `uint32_t(log2(33554420.0f))` is 25. -/
theorem log2FloatIEEE_33554420 : log2FloatIEEE 33554420 = 25 := by
  have hl : Nat.log2 33554420 = 24 := log2_eq_of_bounds (by norm_num) (by norm_num)
  have hx : floatOfUint32 33554420 = 33554420 := by
    unfold floatOfUint32
    rw [hl]
    decide
  have hp : 24 - Nat.log2 24 = 20 := by
    rw [log2_eq_of_bounds (k := 4) (by norm_num) (by norm_num)]
  exact @log2FloatIEEE_of_rounds_up 33554420 33554420 24 20 hx hl hp
    (rounds_up_cond 24 20 13 33554420 (by norm_num) (by norm_num) (by norm_num)
      (Or.inl (by norm_num)))

/-- At 2097151 x 1 x 1 `getMaxMipCount` is 22, while the highest set bit of the
dimensions has index 20. -/
theorem getMaxMipCount_2097151 :
    getMaxMipCount ieeeEnv { width := 2097151, height := 1, depth := 1 } = 22 ∧
    (_BitScanReverse 0 (2097151 ||| 1 ||| 1)).2 + 1 = 21 := by
  constructor
  · have hmax : max (max 2097151 1) 1 = 2097151 := by norm_num
    have hwrap : wrap32 (1 + 21) = 22 := by norm_num [wrap32]
    rw [getMaxMipCount_mk, ieeeEnv_log2Float, hmax, log2FloatIEEE_2097151, hwrap]
  · rfl

/-- The macro `align_to` at the end of the 32-bit range: a multiple of the
alignment is returned unchanged, a value within one block of `2 ^ 32` wraps to 0. -/
theorem align_to_uint32_samples :
    align_to_uint32 1 4294967295 = 4294967295 ∧
    align_to_uint32 4 4294967292 = 4294967292 ∧
    align_to_uint32 4 4294967295 = 0 ∧
    align_to_uint32 4 1 = 4 ∧
    align_to_uint32 4 300 = 300 ∧
    align_to_uint32 4 301 = 304 := by
  decide

/-! ## Claims -/

/-- C1: for 32-bit `width`, `height`, `depth`, not all zero, the constructor
`Texture::Texture` called with the sentinel `kMaxPossible` as mip-level count sets
`mMipLevels` to `floor(log2(max(width, height, depth))) + 1`; and the texture that
`create2D` builds for width 300, height 200 and the sentinel has mip count 9. -/
theorem C1_mip_count_resolution (env : Env) (width height depth : Nat)
    (hw : width < 2 ^ 32) (hh : height < 2 ^ 32) (hd : depth < 2 ^ 32)
    (hne : ¬(width = 0 ∧ height = 0 ∧ depth = 0)) :
    (∀ (arraySize sampleCount format bindFlags : Nat) (type : TextureType),
      (Texture.Texture env width height depth arraySize env.kMaxPossible sampleCount format
        type bindFlags).mMipLevels = Nat.log2 (max width (max height depth)) + 1) ∧
    (∀ (format arraySize bindFlags : Nat) (pData : Option Nat),
      (Texture.create2D env 300 200 format arraySize env.kMaxPossible pData
        bindFlags).pTexture.mMipLevels = 9) := by
  have hlog : Nat.log2 (max width (max height depth)) < 32 := by
    have hM : max width (max height depth) ≠ 0 := by omega
    exact (Nat.log2_lt hM).2 (by omega)
  constructor
  · intro arraySize sampleCount format bindFlags type
    simp only [Texture.Texture, if_true,
      bitScanReverse_dims env.bitsUninit width height depth hw hh hd hne, wrap32]
    omega
  · intro format arraySize bindFlags pData
    have h9 : ∀ i, (_BitScanReverse i (300 ||| 200 ||| 1)).2 = 8 := fun _ => rfl
    simp only [Texture.create2D, finishCreate, Texture.initResource, Texture.Texture, if_true,
      h9, wrap32]
    cases env.vkCreateImage _ <;> rfl

/-- Witness for C1: the hypotheses hold for width 300, height 200, depth 1, and
the constructor resolves the sentinel to `floor(log2(300)) + 1` there. -/
theorem C1_mip_count_resolution_witness :
    (300 < 2 ^ 32 ∧ 200 < 2 ^ 32 ∧ 1 < 2 ^ 32 ∧ ¬(300 = 0 ∧ 200 = 0 ∧ 1 = 0)) ∧
    (Texture.Texture sampleEnv 300 200 1 1 sampleEnv.kMaxPossible 1 0 TextureType.Texture2D
      0).mMipLevels = Nat.log2 (max 300 (max 200 1)) + 1 :=
  ⟨⟨by decide, by decide, by decide, by decide⟩,
    (C1_mip_count_resolution sampleEnv 300 200 1 (by decide) (by decide) (by decide)
      (by decide)).1 1 1 0 0 TextureType.Texture2D⟩

/-- C2: for `create1D`, `create2D`, `create3D` and `createCube` and every input
bind-flag set, when the requested mip-level count is `kMaxPossible` and the data
pointer is non-null, the bind flags passed to the constructed `Texture` are the
caller's flags with `RenderTarget` or-ed in: they include `RenderTarget` and every
flag the caller supplied, and so do the bind flags of a returned texture. -/
theorem C2_full_chain_with_data_adds_render_target (env : Env) (pData : Option Nat)
    (hData : pData ≠ none) (bindFlags : Nat) :
    (∀ width format arraySize,
      (Texture.create1D env width format arraySize env.kMaxPossible pData
          bindFlags).pTexture.mBindFlags = bindFlags ||| env.RenderTarget ∧
      (Texture.create1D env width format arraySize env.kMaxPossible pData
          bindFlags).bindFlagsInclude env.RenderTarget ∧
      (Texture.create1D env width format arraySize env.kMaxPossible pData
          bindFlags).bindFlagsInclude bindFlags) ∧
    (∀ width height format arraySize,
      (Texture.create2D env width height format arraySize env.kMaxPossible pData
          bindFlags).pTexture.mBindFlags = bindFlags ||| env.RenderTarget ∧
      (Texture.create2D env width height format arraySize env.kMaxPossible pData
          bindFlags).bindFlagsInclude env.RenderTarget ∧
      (Texture.create2D env width height format arraySize env.kMaxPossible pData
          bindFlags).bindFlagsInclude bindFlags) ∧
    (∀ width height depth format isSparse,
      (Texture.create3D env width height depth format env.kMaxPossible pData bindFlags
          isSparse).pTexture.mBindFlags = bindFlags ||| env.RenderTarget ∧
      (Texture.create3D env width height depth format env.kMaxPossible pData bindFlags
          isSparse).bindFlagsInclude env.RenderTarget ∧
      (Texture.create3D env width height depth format env.kMaxPossible pData bindFlags
          isSparse).bindFlagsInclude bindFlags) ∧
    (∀ width height format arraySize,
      (Texture.createCube env width height format arraySize env.kMaxPossible pData
          bindFlags).pTexture.mBindFlags = bindFlags ||| env.RenderTarget ∧
      (Texture.createCube env width height format arraySize env.kMaxPossible pData
          bindFlags).bindFlagsInclude env.RenderTarget ∧
      (Texture.createCube env width height format arraySize env.kMaxPossible pData
          bindFlags).bindFlagsInclude bindFlags) := by
  have hd : decide (pData ≠ none) = true := by simpa using hData
  refine ⟨?_, ?_, ?_, ?_⟩
  · intro width format arraySize
    simp only [Texture.create1D, hd, updateBindFlags_full_chain]
    exact ⟨finishCreate_bindFlags _ _ _ _,
      finishCreate_bindFlagsInclude _ _ _ _ _ (hasFlags_or_right _ _),
      finishCreate_bindFlagsInclude _ _ _ _ _ (hasFlags_or_left _ _)⟩
  · intro width height format arraySize
    simp only [Texture.create2D, hd, updateBindFlags_full_chain]
    exact ⟨finishCreate_bindFlags _ _ _ _,
      finishCreate_bindFlagsInclude _ _ _ _ _ (hasFlags_or_right _ _),
      finishCreate_bindFlagsInclude _ _ _ _ _ (hasFlags_or_left _ _)⟩
  · intro width height depth format isSparse
    simp only [Texture.create3D, hd, updateBindFlags_full_chain]
    exact ⟨finishCreate_bindFlags _ _ _ _,
      finishCreate_bindFlagsInclude _ _ _ _ _ (hasFlags_or_right _ _),
      finishCreate_bindFlagsInclude _ _ _ _ _ (hasFlags_or_left _ _)⟩
  · intro width height format arraySize
    simp only [Texture.createCube, hd, updateBindFlags_full_chain]
    exact ⟨finishCreate_bindFlags _ _ _ _,
      finishCreate_bindFlagsInclude _ _ _ _ _ (hasFlags_or_right _ _),
      finishCreate_bindFlagsInclude _ _ _ _ _ (hasFlags_or_left _ _)⟩

/-- Witness for C2: a 300 x 200 2D texture created with the sentinel, a non-null
data pointer and the flags `ShaderResource` gets the flags `ShaderResource |
RenderTarget`. -/
theorem C2_full_chain_with_data_adds_render_target_witness :
    (some 4096 : Option Nat) ≠ none ∧
    (Texture.create2D sampleEnv 300 200 0 1 sampleEnv.kMaxPossible (some 4096)
      0x10).pTexture.mBindFlags = 0x10 ||| sampleEnv.RenderTarget :=
  ⟨by decide,
    ((C2_full_chain_with_data_adds_render_target sampleEnv (some 4096) (by decide)
      0x10).2.1 300 200 0 1).1⟩

/-- C4, as stated, fails: with Cbv = Srv = 2 ^ 31 (well-formed 32-bit counts) the
32-bit sum of the shared category wraps to 0, so `apiInit` succeeds without
creating any heap, although kinds of the shared category have a non-zero count. -/
theorem C4_counterexample :
    (mkDesc 2147483648 2147483648 0 0 0 0 true).wellFormed ∧
    (mkDesc 2147483648 2147483648 0 0 0 0 true).mDescCount DescriptorType.Cbv ≠ 0 ∧
    (DescriptorPool.apiInit createAlways (mkDesc 2147483648 2147483648 0 0 0 0 true)).ret = true ∧
    (DescriptorPool.apiInit createAlways (mkDesc 2147483648 2147483648 0 0 0 0 true)).pHeaps
      (heapTypeOf DescriptorType.Cbv) = none ∧
    (DescriptorPool.apiInit createAlways (mkDesc 2147483648 2147483648 0 0 0 0 true)).calls = [] := by
  refine ⟨?_, by decide, ?_, ?_, ?_⟩
  · intro k
    cases k <;> decide
  · rfl
  · rfl
  · rfl

/-- C4, amended: for every description, when `apiInit` succeeds, each physical
heap category whose summed count, taken in 32-bit unsigned arithmetic, is non-zero
has exactly one heap, created with capacity equal to that count: the RTV, DSV and
Sampler heaps are sized to their own counts and the shared CBV_SRV_UAV heap to
`(Cbv + Srv + Uav) mod 2 ^ 32`, with the shader-visible flag passed through. -/
theorem C4_one_heap_per_category (create : Nat → Nat → Bool → Option Nat)
    (mDesc : DescriptorPoolDesc) (hret : (DescriptorPool.apiInit create mDesc).ret = true)
    (heapType : Nat) (ht : heapType < D3D12_DESCRIPTOR_HEAP_TYPE_NUM_TYPES)
    (hcount : categoryCount mDesc heapType ≠ 0) :
    (DescriptorPool.apiInit create mDesc).calls.filter (fun c => decide (c.type = heapType)) =
      [{ type := heapType, descCount := categoryCount mDesc heapType,
         shaderVisible := mDesc.mShaderVisible }] ∧
    (DescriptorPool.apiInit create mDesc).pHeaps heapType =
      create heapType (categoryCount mDesc heapType) mDesc.mShaderVisible ∧
    (DescriptorPool.apiInit create mDesc).pHeaps heapType ≠ none := by
  have ht4 : heapType < 4 := ht
  obtain ⟨m, hm, hcalls, hheaps, -, htrue, -⟩ := apiInit_spec create mDesc
  obtain ⟨hm4, hall⟩ := htrue hret
  have heq := apiInitDescCount_eq_categoryCount mDesc heapType ht4
  have hdc : apiInitDescCount mDesc heapType ≠ 0 := by
    rw [heq]
    exact hcount
  have hheap : (DescriptorPool.apiInit create mDesc).pHeaps heapType =
      create heapType (categoryCount mDesc heapType) mDesc.mShaderVisible := by
    rw [hheaps, if_pos ⟨by omega, hdc⟩, heq]
  refine ⟨?_, hheap, ?_⟩
  · rw [hcalls, hm4, filter_heapCalls_four _ _ _ ht4 hdc, heapCall, heq]
  · rw [hheap, ← heq]
    exact hall heapType ht4 hdc

/-- Witness for C4: with counts Cbv = 1, Srv = 2, Uav = 3 on a device that
creates every heap, the shared heap is created once, with capacity 6. -/
theorem C4_one_heap_per_category_witness :
    ((DescriptorPool.apiInit createAlways (mkDesc 1 2 3 4 5 6 true)).ret = true ∧
      D3D12_DESCRIPTOR_HEAP_TYPE_CBV_SRV_UAV < D3D12_DESCRIPTOR_HEAP_TYPE_NUM_TYPES ∧
      categoryCount (mkDesc 1 2 3 4 5 6 true) D3D12_DESCRIPTOR_HEAP_TYPE_CBV_SRV_UAV = 6) ∧
    (DescriptorPool.apiInit createAlways (mkDesc 1 2 3 4 5 6 true)).calls.filter
        (fun c => decide (c.type = D3D12_DESCRIPTOR_HEAP_TYPE_CBV_SRV_UAV)) =
      [{ type := D3D12_DESCRIPTOR_HEAP_TYPE_CBV_SRV_UAV,
         descCount := categoryCount (mkDesc 1 2 3 4 5 6 true) D3D12_DESCRIPTOR_HEAP_TYPE_CBV_SRV_UAV,
         shaderVisible := true }] :=
  ⟨⟨rfl, by decide, by decide⟩,
    (C4_one_heap_per_category createAlways (mkDesc 1 2 3 4 5 6 true) rfl
      D3D12_DESCRIPTOR_HEAP_TYPE_CBV_SRV_UAV (by decide) (by decide)).1⟩

/-- C5, as stated, fails: with Cbv = Srv = 2 ^ 31 the summed count of the shared
category is `2 ^ 32`, not zero, and on a device where every heap creation fails
no heap of that category is created; yet `apiInit` returns true, because the
32-bit sum wrapped to 0 and no creation was attempted. -/
theorem C5_counterexample :
    (mkDesc 2147483648 2147483648 0 0 0 0 true).wellFormed ∧
    (mkDesc 2147483648 2147483648 0 0 0 0 true).mDescCount DescriptorType.Cbv +
      (mkDesc 2147483648 2147483648 0 0 0 0 true).mDescCount DescriptorType.Srv +
      (mkDesc 2147483648 2147483648 0 0 0 0 true).mDescCount DescriptorType.Uav ≠ 0 ∧
    (∀ count shaderVisible,
      createNever D3D12_DESCRIPTOR_HEAP_TYPE_CBV_SRV_UAV count shaderVisible = none) ∧
    (DescriptorPool.apiInit createNever (mkDesc 2147483648 2147483648 0 0 0 0 true)).ret = true ∧
    (DescriptorPool.apiInit createNever (mkDesc 2147483648 2147483648 0 0 0 0 true)).pHeaps
      D3D12_DESCRIPTOR_HEAP_TYPE_CBV_SRV_UAV = none ∧
    (DescriptorPool.apiInit createNever (mkDesc 2147483648 2147483648 0 0 0 0 true)).calls = [] := by
  refine ⟨?_, by decide, fun _ _ => rfl, rfl, rfl, rfl⟩
  intro k
  cases k <;> decide

/-- C5, amended: `apiInit` returns true if and only if
`D3D12DescriptorHeap::create` succeeds for every heap category whose summed
count, taken in 32-bit unsigned arithmetic, is non-zero (the own count for RTV,
DSV and Sampler, `(Cbv + Srv + Uav) mod 2 ^ 32` for the shared category); and when
it returns false there is a first failing category `k`: its creation failed, every
earlier required creation succeeded, the failed call is the last call made, no
creation was attempted for a category after `k`, and the heaps of the later
categories are null. -/
theorem C5_apiInit_succeeds_iff_all_heaps_created (create : Nat → Nat → Bool → Option Nat)
    (mDesc : DescriptorPoolDesc) :
    ((DescriptorPool.apiInit create mDesc).ret = true ↔
      ∀ t, t < D3D12_DESCRIPTOR_HEAP_TYPE_NUM_TYPES → categoryCount mDesc t ≠ 0 →
        create t (categoryCount mDesc t) mDesc.mShaderVisible ≠ none) ∧
    ((DescriptorPool.apiInit create mDesc).ret = false →
      ∃ k, k < D3D12_DESCRIPTOR_HEAP_TYPE_NUM_TYPES ∧
        categoryCount mDesc k ≠ 0 ∧
        create k (categoryCount mDesc k) mDesc.mShaderVisible = none ∧
        (∀ j, j < k → categoryCount mDesc j ≠ 0 →
          create j (categoryCount mDesc j) mDesc.mShaderVisible ≠ none) ∧
        (DescriptorPool.apiInit create mDesc).calls.getLast? =
          some { type := k, descCount := categoryCount mDesc k,
                 shaderVisible := mDesc.mShaderVisible } ∧
        (∀ c ∈ (DescriptorPool.apiInit create mDesc).calls, c.type ≤ k) ∧
        (∀ j, k < j → (DescriptorPool.apiInit create mDesc).pHeaps j = none)) := by
  obtain ⟨hiff, hfail⟩ := apiInit_ret_spec create mDesc
  have heq : ∀ t, t < D3D12_DESCRIPTOR_HEAP_TYPE_NUM_TYPES →
      apiInitDescCount mDesc t = categoryCount mDesc t :=
    fun t ht => apiInitDescCount_eq_categoryCount mDesc t ht
  constructor
  · rw [hiff]
    constructor
    · intro h t ht hc
      have := h t ht (by rw [heq t ht]; exact hc)
      rw [heq t ht] at this
      exact this
    · intro h t ht hc
      rw [heq t ht] at hc ⊢
      exact h t ht hc
  · intro hr
    obtain ⟨k, hk, hdc, hnone, hpre, hlast, hcalls, hheaps⟩ := hfail hr
    refine ⟨k, hk, ?_, ?_, ?_, ?_, hcalls, hheaps⟩
    · rw [← heq k hk]
      exact hdc
    · rw [← heq k hk]
      exact hnone
    · intro j hj hc
      have hj4 : j < D3D12_DESCRIPTOR_HEAP_TYPE_NUM_TYPES := Nat.lt_trans hj hk
      rw [← heq j hj4] at hc ⊢
      exact hpre j hj hc
    · rw [hlast, heq k hk]

/-- Witness for C5: on a device that cannot create sampler heaps, a pool that
requests every kind fails at the sampler category: `apiInit` returns false. -/
theorem C5_apiInit_succeeds_iff_all_heaps_created_witness :
    (DescriptorPool.apiInit createNoSampler (mkDesc 1 2 3 4 5 6 true)).ret = false ∧
    ∃ k, k < D3D12_DESCRIPTOR_HEAP_TYPE_NUM_TYPES ∧
      categoryCount (mkDesc 1 2 3 4 5 6 true) k ≠ 0 ∧
      createNoSampler k (categoryCount (mkDesc 1 2 3 4 5 6 true) k) true = none ∧
      (∀ j, j < k → categoryCount (mkDesc 1 2 3 4 5 6 true) j ≠ 0 →
        createNoSampler j (categoryCount (mkDesc 1 2 3 4 5 6 true) j) true ≠ none) ∧
      (DescriptorPool.apiInit createNoSampler (mkDesc 1 2 3 4 5 6 true)).calls.getLast? =
        some { type := k, descCount := categoryCount (mkDesc 1 2 3 4 5 6 true) k,
               shaderVisible := true } ∧
      (∀ c ∈ (DescriptorPool.apiInit createNoSampler (mkDesc 1 2 3 4 5 6 true)).calls,
        c.type ≤ k) ∧
      (∀ j, k < j →
        (DescriptorPool.apiInit createNoSampler (mkDesc 1 2 3 4 5 6 true)).pHeaps j = none) :=
  ⟨rfl, (C5_apiInit_succeeds_iff_all_heaps_created createNoSampler
    (mkDesc 1 2 3 4 5 6 true)).2 rfl⟩

/-- C6: for every program name and every choice of fragment, geometry, hull and
domain shaders, `ProgramVersion::create` called with a null vertex shader returns
null, sets the log to `"Program " + name + " doesn't contain a vertex-shader. This
is illegal."`, and calls neither `apiInit` nor `ProgramReflection::create`. -/
theorem C6_null_vertex_shader_rejected (backend : ProgramBackend)
    (pFS pGS pHS pDS : Option Nat) (log name : String) :
    (ProgramVersion.create backend none pFS pGS pHS pDS log name).result.isNone = true ∧
    (ProgramVersion.create backend none pFS pGS pHS pDS log name).log =
      "Program " ++ name ++ " doesn't contain a vertex-shader. This is illegal." ∧
    (ProgramVersion.create backend none pFS pGS pHS pDS log name).calls = [] := by
  simp [ProgramVersion.create]

/-- C7 fails on the code: with a non-null vertex shader, a successful `apiInit`
and a reflection collaborator that returns null, `ProgramVersion::create` still
returns a program object, whose `mpReflector` is null; the result of
`ProgramReflection::create` is stored and never tested. -/
theorem C7_reflection_failure_not_propagated :
    (reflectionFails.reflectionCreate
      (ProgramVersion.ProgramVersion (some 1) none none none none "p") "").1 = none ∧
    (ProgramVersion.create reflectionFails (some 1) none none none none "" "p").result.isSome
      = true ∧
    (ProgramVersion.create reflectionFails (some 1) none none none none "" "p").result.map
      (fun p => p.mpReflector) = some none ∧
    (ProgramVersion.create reflectionFails (some 1) none none none none "" "p").calls =
      [ProgramCall.apiInit, ProgramCall.reflectionCreate] := by
  refine ⟨rfl, rfl, rfl, rfl⟩

/-- C8: each of the five factories returns null when the `vkCreateImage` call of
`initResource` fails for the object it allocated, returns that object holding the
created handle when the call succeeds, and never returns an object whose
`mApiHandle` is unset. -/
theorem C8_factory_result_follows_image_creation (env : Env) (pData : Option Nat)
    (bindFlags format : Nat) :
    (∀ width arraySize mipLevels,
      (Texture.create1D env width format arraySize mipLevels pData
        bindFlags).followsImageCreation env
        (Texture.Texture env width 1 1 arraySize mipLevels 1 format TextureType.Texture1D
          (updateBindFlags env bindFlags (pData ≠ none) mipLevels)) pData) ∧
    (∀ width height arraySize mipLevels,
      (Texture.create2D env width height format arraySize mipLevels pData
        bindFlags).followsImageCreation env
        (Texture.Texture env width height 1 arraySize mipLevels 1 format TextureType.Texture2D
          (updateBindFlags env bindFlags (pData ≠ none) mipLevels)) pData) ∧
    (∀ width height depth mipLevels isSparse,
      (Texture.create3D env width height depth format mipLevels pData bindFlags
        isSparse).followsImageCreation env
        (Texture.Texture env width height depth 1 mipLevels 1 format TextureType.Texture3D
          (updateBindFlags env bindFlags (pData ≠ none) mipLevels)) pData) ∧
    (∀ width height arraySize mipLevels,
      (Texture.createCube env width height format arraySize mipLevels pData
        bindFlags).followsImageCreation env
        (Texture.Texture env width height 1 arraySize mipLevels 1 format TextureType.TextureCube
          (updateBindFlags env bindFlags (pData ≠ none) mipLevels)) pData) ∧
    (∀ width height sampleCount arraySize,
      (Texture.create2DMS env width height format sampleCount arraySize
        bindFlags).followsImageCreation env
        (Texture.Texture env width height 1 arraySize 1 sampleCount format
          TextureType.Texture2DMultisample bindFlags) none) := by
  refine ⟨?_, ?_, ?_, ?_, ?_⟩
  · intro width arraySize mipLevels
    exact finishCreate_followsImageCreation _ _ _ _ rfl
  · intro width height arraySize mipLevels
    exact finishCreate_followsImageCreation _ _ _ _ rfl
  · intro width height depth mipLevels isSparse
    exact finishCreate_followsImageCreation _ _ _ _ rfl
  · intro width height arraySize mipLevels
    exact finishCreate_followsImageCreation _ _ _ _ rfl
  · intro width height sampleCount arraySize
    exact finishCreate_followsImageCreation _ _ _ _ rfl

/-- Witness for C8: on a device whose image creation fails `create2D` returns
null, and on a device whose image creation yields handle 1 it returns a texture
with `mApiHandle` 1. -/
theorem C8_factory_result_follows_image_creation_witness :
    (Texture.create2D failingEnv 300 200 0 1 1 none 0x10).result = none ∧
    (Texture.create2D sampleEnv 300 200 0 1 1 none 0x10).result.map (fun t => t.mApiHandle) =
      some (some 1) :=
  ⟨((C8_factory_result_follows_image_creation failingEnv none 0x10 0).2.1 300 200 1 1).1 rfl,
    by
      rw [((C8_factory_result_follows_image_creation sampleEnv none 0x10 0).2.1 300 200 1
        1).2.1 1 rfl]
      rfl⟩

/-- C9 fails on the code: for a buffer-backed view and the value `(7, 7, 9, 7)`,
whose components are not all equal, `clearUAV` records the fill with `x = 7` but
logs no warning; the same holds for `(7, 7, 7, 9)`.  The condition of the warning
is `x != y || (x != z && x != w)`. -/
theorem C9_non_uniform_value_without_warning :
    ¬((7 : Nat) = 7 ∧ (7 : Nat) = 9 ∧ (7 : Nat) = 7) ∧
    idleContext.clearUAV_uvec4 sampleBufferView { x := 7, y := 7, z := 9, w := 7 } =
      some ({ mCommandsPending := true,
              recorded := [Command.vkCmdFillBuffer 11 0 256 7] }, []) ∧
    idleContext.clearUAV_uvec4 sampleBufferView { x := 7, y := 7, z := 7, w := 9 } =
      some ({ mCommandsPending := true,
              recorded := [Command.vkCmdFillBuffer 11 0 256 7] }, []) := by
  refine ⟨by decide, ?_, ?_⟩ <;> decide

/-- C10, as stated, fails: the `vec4` `clearUAV` on a buffer-typed view changes
the context, whose `mCommandsPending` goes from false to true. -/
theorem C10_counterexample :
    sampleBufferView.apiHandleType ≠ VkResourceType.Image ∧
    idleContext.mCommandsPending = false ∧
    (idleContext.clearUAV_vec4 sampleBufferView { x := 0, y := 0, z := 0, w := 0 }).1.mCommandsPending
      = true ∧
    (idleContext.clearUAV_vec4 sampleBufferView { x := 0, y := 0, z := 0, w := 0 }).1
      ≠ idleContext := by
  decide

/-- C10, amended: for every view whose resource type is not `Image`, the `vec4`
`clearUAV` logs the warning of `clearColorImageCommon` (followed by the
`should_not_get_here` diagnostic) and records nothing, neither a resource barrier
nor a clear command; the context after the call is the context before it with
`mCommandsPending` set to true. -/
theorem C10_vec4_clear_of_non_image_records_nothing (self : ComputeContext)
    (pUav : ResourceView) (value : Vec4)
    (hType : pUav.apiHandleType ≠ VkResourceType.Image) :
    (self.clearUAV_vec4 pUav value).2 =
      [LogEntry.warning clearBufferWarning, LogEntry.shouldNotGetHere] ∧
    (self.clearUAV_vec4 pUav value).1.recorded = self.recorded ∧
    (self.clearUAV_vec4 pUav value).1 = { self with mCommandsPending := true } := by
  simp [ComputeContext.clearUAV_vec4, clearColorImageCommon, hType]

/-- Witness for C10: a buffer-typed view on an idle context. -/
theorem C10_vec4_clear_of_non_image_records_nothing_witness :
    sampleBufferView.apiHandleType ≠ VkResourceType.Image ∧
    (idleContext.clearUAV_vec4 sampleBufferView { x := 1, y := 2, z := 3, w := 4 }).1 =
      { idleContext with mCommandsPending := true } :=
  ⟨by decide,
    (C10_vec4_clear_of_non_image_records_nothing idleContext sampleBufferView
      { x := 1, y := 2, z := 3, w := 4 } (by decide)).2.2⟩

/-- C11, as stated, fails: the `uvec4` `clearUAV` on an image-typed view logs
nothing and records a barrier followed by an image clear for that view. -/
theorem C11_counterexample :
    sampleImageView.apiHandleType = VkResourceType.Image ∧
    idleContext.clearUAV_uvec4 sampleImageView { x := 7, y := 7, z := 7, w := 7 } =
      some ({ mCommandsPending := true,
              recorded :=
                [Command.resourceBarrier (Resource.other 21) ResourceState.CopyDest,
                 Command.vkCmdClearColorImage 21 VkImageLayout.VK_IMAGE_LAYOUT_TRANSFER_DST_OPTIMAL
                   { x := 7, y := 7, z := 7, w := 7 }
                   { aspectMask := VK_IMAGE_ASPECT_COLOR_BIT, baseMipLevel := 1, levelCount := 4,
                     baseArrayLayer := 2, layerCount := 3 }] }, []) := by
  decide

/-- C11, amended: for every image-typed view the `uvec4` `clearUAV` records no
buffer fill and logs nothing; it forwards the view and the value to
`clearColorImageCommon`, so that a resource barrier and one image clear with the
four components as colour are recorded, and sets `mCommandsPending`. -/
theorem C11_uvec4_clear_of_image_forwards (self : ComputeContext) (pUav : ResourceView)
    (value : Vec4) (hType : pUav.apiHandleType = VkResourceType.Image) :
    self.clearUAV_uvec4 pUav value =
      some ({ (clearColorImageCommon self pUav value).1 with mCommandsPending := true }, []) ∧
    (∀ r, self.clearUAV_uvec4 pUav value = some r →
      r.2 = [] ∧
      r.1.mCommandsPending = true ∧
      r.1.recorded = self.recorded ++
        [Command.resourceBarrier pUav.resource ResourceState.CopyDest,
         Command.vkCmdClearColorImage pUav.resource.getApiHandle
           VkImageLayout.VK_IMAGE_LAYOUT_TRANSFER_DST_OPTIMAL value
           { aspectMask := VK_IMAGE_ASPECT_COLOR_BIT
             baseMipLevel := pUav.viewInfo.mostDetailedMip
             levelCount := pUav.viewInfo.mipCount
             baseArrayLayer := pUav.viewInfo.firstArraySlice
             layerCount := pUav.viewInfo.arraySize }] ∧
      (∀ b o s d, Command.vkCmdFillBuffer b o s d ∈ r.1.recorded →
        Command.vkCmdFillBuffer b o s d ∈ self.recorded)) := by
  have h := clearUAV_uvec4_image self pUav value hType
  rw [clearColorImageCommon_image self pUav value hType] at h
  constructor
  · rw [h, clearColorImageCommon_image self pUav value hType]
  · intro r hr
    rw [h] at hr
    have hr2 := (Option.some.inj hr).symm
    subst hr2
    refine ⟨rfl, rfl, rfl, ?_⟩
    intro b o s d hmem
    simpa using hmem

/-- Witness for C11: the image view of the counterexample on an idle context. -/
theorem C11_uvec4_clear_of_image_forwards_witness :
    sampleImageView.apiHandleType = VkResourceType.Image ∧
    idleContext.clearUAV_uvec4 sampleImageView { x := 7, y := 7, z := 7, w := 7 } =
      some ({ (clearColorImageCommon idleContext sampleImageView
        { x := 7, y := 7, z := 7, w := 7 }).1 with mCommandsPending := true }, []) :=
  ⟨rfl, (C11_uvec4_clear_of_image_forwards idleContext sampleImageView
    { x := 7, y := 7, z := 7, w := 7 } rfl).1⟩

/-- C12: for every image-backed view and every four-component clear value,
`clearColorImageCommon` logs nothing and appends exactly two calls to those
already recorded: first `resourceBarrier(resource, CopyDest)`, then one
`vkCmdClearColorImage` whose colour is the supplied value and whose range is the
view's first array slice, array size, most detailed mip and mip count. -/
theorem C12_image_clear_barrier_then_clear (pCtx : ComputeContext) (pView : ResourceView)
    (clearVal : Vec4) (hType : pView.apiHandleType = VkResourceType.Image) :
    clearColorImageCommon pCtx pView clearVal =
      ({ pCtx with
          recorded := pCtx.recorded ++
            [Command.resourceBarrier pView.resource ResourceState.CopyDest,
             Command.vkCmdClearColorImage pView.resource.getApiHandle
               VkImageLayout.VK_IMAGE_LAYOUT_TRANSFER_DST_OPTIMAL clearVal
               { aspectMask := VK_IMAGE_ASPECT_COLOR_BIT
                 baseMipLevel := pView.viewInfo.mostDetailedMip
                 levelCount := pView.viewInfo.mipCount
                 baseArrayLayer := pView.viewInfo.firstArraySlice
                 layerCount := pView.viewInfo.arraySize }] }, []) := by
  exact clearColorImageCommon_image pCtx pView clearVal hType

/-- Witness for C12: an image view with slices 2..4 and mips 1..4 cleared to
`(1, 2, 3, 4)` on an idle context. -/
theorem C12_image_clear_barrier_then_clear_witness :
    sampleImageView.apiHandleType = VkResourceType.Image ∧
    (clearColorImageCommon idleContext sampleImageView { x := 1, y := 2, z := 3, w := 4 }).1.recorded =
      [Command.resourceBarrier (Resource.other 21) ResourceState.CopyDest,
       Command.vkCmdClearColorImage 21 VkImageLayout.VK_IMAGE_LAYOUT_TRANSFER_DST_OPTIMAL
         { x := 1, y := 2, z := 3, w := 4 }
         { aspectMask := VK_IMAGE_ASPECT_COLOR_BIT, baseMipLevel := 1, levelCount := 4,
           baseArrayLayer := 2, layerCount := 3 }] :=
  ⟨rfl, by
    rw [C12_image_clear_barrier_then_clear idleContext sampleImageView
      { x := 1, y := 2, z := 3, w := 4 } rfl]
    rfl⟩

/-- C13 fails on the code: `Texture::getMipLevelDataSize` of the Vulkan backend
returns 0 for every level, so `getDataSize()` of a single-mip 4 x 4 texture is 0
and not `4 * 4 * bytesPerPixel`, whatever the (non-zero) pixel size. -/
theorem C13_single_mip_data_size_is_zero :
    sampleTexture.mMipLevels = 1 ∧ sampleTexture.mWidth = 4 ∧ sampleTexture.mHeight = 4 ∧
    sampleTexture.getDataSize = 0 ∧
    (∀ bytesPerPixel, 0 < bytesPerPixel →
      sampleTexture.getDataSize ≠ sampleTexture.mWidth * sampleTexture.mHeight * bytesPerPixel) := by
  refine ⟨rfl, rfl, rfl, rfl, ?_⟩
  intro bytesPerPixel hpos
  rw [getDataSize_eq_zero]
  have : sampleTexture.mWidth * sampleTexture.mHeight * bytesPerPixel = 16 * bytesPerPixel := rfl
  omega

/-- C14 fails on the code: for the extent 33554431 x 1 x 1 (`2 ^ 25 - 1`, a valid
`uint32_t` width) the conversion to `float` rounds the width up to `2 ^ 25`, so
`getMaxMipCount` returns `1 + 25 = 26`, while the constructor finds the highest
set bit of the same dimensions at index 24 and resolves the mip count to 25. -/
theorem C14_max_mip_count_differs_from_bit_scan :
    floatOfUint32 33554431 = 33554432 ∧
    getMaxMipCount ieeeEnv { width := 33554431, height := 1, depth := 1 } = 26 ∧
    (Texture.Texture ieeeEnv 33554431 1 1 1 ieeeEnv.kMaxPossible 1 0 TextureType.Texture2D
      0).mMipLevels = 25 := by
  refine ⟨floatOfUint32_two_pow_25_sub_one, ?_, ?_⟩
  · have hmax : max (max 33554431 1) 1 = 33554431 := by norm_num
    have hwrap : wrap32 (1 + 25) = 26 := by norm_num [wrap32]
    rw [getMaxMipCount_mk, ieeeEnv_log2Float, hmax, log2FloatIEEE_two_pow_25_sub_one, hwrap]
  · have hscan : ∀ i, (_BitScanReverse i (33554431 ||| 1 ||| 1)).2 = 24 := fun _ => rfl
    rw [ctor_mipLevels_scan, hscan]
    norm_num [wrap32]

/-- C15: the `VkImageCreateInfo` that `Texture::initResource` passes to
`vkCreateImage` has initial layout `PREINITIALIZED` if and only if the data
pointer is non-null, and `UNDEFINED` if and only if it is null. -/
theorem C15_initial_layout_follows_data (env : Env) (t : Texture) (pData : Option Nat)
    (autoGenMips : Bool) :
    ((initResourceImageInfo env t pData).initialLayout =
        VkImageLayout.VK_IMAGE_LAYOUT_PREINITIALIZED ↔ pData ≠ none) ∧
    ((initResourceImageInfo env t pData).initialLayout =
        VkImageLayout.VK_IMAGE_LAYOUT_UNDEFINED ↔ pData = none) ∧
    t.initResource env pData autoGenMips =
      (match env.vkCreateImage (initResourceImageInfo env t pData) with
      | none => (t, [LogEntry.error "Failed to create texture."])
      | some image => ({ t with mApiHandle := some image }, [])) := by
  refine ⟨?_, ?_, rfl⟩
  · cases pData <;> simp [initResourceImageInfo]
  · cases pData <;> simp [initResourceImageInfo]

/-- C16: `Texture::getDataSize()` is the sum of `getMipLevelDataSize(l)` over the
levels `l < mMipLevels`, reduced to 32 bits, and is 0 when `mMipLevels` is 0; the
loop computes that sum for any per-level size function. -/
theorem C16_data_size_is_sum_over_levels (t : Texture) :
    t.getDataSize = (∑ l ∈ Finset.range t.mMipLevels, t.getMipLevelDataSize l) % 2 ^ 32 ∧
    (t.mMipLevels = 0 → t.getDataSize = 0) ∧
    (∀ (getMipLevelDataSize : Nat → Nat) (mMipLevels : Nat),
      getDataSizeWith getMipLevelDataSize mMipLevels =
        (∑ l ∈ Finset.range mMipLevels, getMipLevelDataSize l) % 2 ^ 32) ∧
    (∀ (getMipLevelDataSize : Nat → Nat), getDataSizeWith getMipLevelDataSize 0 = 0) := by
  refine ⟨getDataSizeWith_eq_sum _ _, fun _ => getDataSize_eq_zero t,
    fun f m => getDataSizeWith_eq_sum f m, fun _ => rfl⟩

/-- Witness for C16: with per-level sizes 64, 16, 4 the loop over three levels
gives 84, and a texture with no mip level has data size 0. -/
theorem C16_data_size_is_sum_over_levels_witness :
    getDataSizeWith (fun l => 64 / 4 ^ l) 3 = (∑ l ∈ Finset.range 3, 64 / 4 ^ l) % 2 ^ 32 ∧
    ({ sampleTexture with mMipLevels := 0 } : Texture).getDataSize = 0 :=
  ⟨(C16_data_size_is_sum_over_levels sampleTexture).2.2.1 (fun l => 64 / 4 ^ l) 3,
    (C16_data_size_is_sum_over_levels { sampleTexture with mMipLevels := 0 }).2.1 rfl⟩

/-- C17 fails on the code: for the bind-flag set that contains only
`ShaderResource` none of the three `|=` runs, so `getVkImageUsageFlags` returns
the value the uninitialised `vkFlags` held; when that value is 0 the returned mask
is 0 and the function's own `assert(vkFlags != 0)` is violated. -/
theorem C17_shader_resource_only_gives_zero_mask :
    sampleEnv.vkFlagsUninit = 0 ∧
    sampleEnv.is_set 0x10 sampleEnv.ShaderResource = true ∧
    sampleEnv.is_set 0x10 sampleEnv.DepthStencil = false ∧
    sampleEnv.is_set 0x10 sampleEnv.RenderTarget = false ∧
    getVkImageUsageFlags sampleEnv 0x10 = 0 := by
  decide

/-- C18: `updateBindFlags` returns the flags unchanged whenever the requested
mip count is not `kMaxPossible` or no initial data is supplied; in every case its
result is the input flags or the input flags with `RenderTarget` or-ed in, so no
flag is removed; and `create2DMS` constructs its texture with the caller's flags
and the mip-level argument 1 (which stays 1 as the sentinel is not 1). -/
theorem C18_bind_flags_changed_only_by_policy (env : Env) (flags : Nat) :
    (∀ hasInitData mipLevels, mipLevels ≠ env.kMaxPossible ∨ hasInitData = false →
      updateBindFlags env flags hasInitData mipLevels = flags) ∧
    (∀ hasInitData mipLevels,
      updateBindFlags env flags hasInitData mipLevels ≠ flags →
        updateBindFlags env flags hasInitData mipLevels = flags ||| env.RenderTarget ∧
        mipLevels = env.kMaxPossible ∧ hasInitData = true) ∧
    (∀ hasInitData mipLevels,
      hasFlags (updateBindFlags env flags hasInitData mipLevels) flags) ∧
    (∀ width height format sampleCount arraySize,
      Texture.create2DMS env width height format sampleCount arraySize flags =
        finishCreate env
          (Texture.Texture env width height 1 arraySize 1 sampleCount format
            TextureType.Texture2DMultisample flags) none false ∧
      (Texture.create2DMS env width height format sampleCount arraySize
        flags).pTexture.mBindFlags = flags ∧
      (env.kMaxPossible ≠ 1 →
        (Texture.create2DMS env width height format sampleCount arraySize
          flags).pTexture.mMipLevels = 1)) := by
  refine ⟨?_, ?_, ?_, ?_⟩
  · intro hasInitData mipLevels h
    simp only [updateBindFlags, if_pos h]
  · intro hasInitData mipLevels h
    unfold updateBindFlags at h ⊢
    by_cases hc : mipLevels ≠ env.kMaxPossible ∨ hasInitData = false
    · rw [if_pos hc] at h
      exact absurd rfl h
    · rw [if_neg hc]
      have h1 : mipLevels = env.kMaxPossible := by
        by_contra hne
        exact hc (Or.inl hne)
      have h2 : hasInitData = true := by
        cases hasInitData
        · exact absurd (Or.inr rfl) hc
        · rfl
      exact ⟨rfl, h1, h2⟩
  · intro hasInitData mipLevels
    unfold updateBindFlags
    split
    · exact Nat.and_self flags
    · exact hasFlags_or_left flags env.RenderTarget
  · intro width height format sampleCount arraySize
    refine ⟨rfl, ?_, ?_⟩
    · unfold Texture.create2DMS
      rw [finishCreate_bindFlags]
      rfl
    · intro hk
      have hk2 : ¬ (1 = env.kMaxPossible) := fun h => hk h.symm
      unfold Texture.create2DMS
      rw [finishCreate_mipLevels]
      simp [Texture.Texture, hk2]

/-- Witness for C18: an explicit mip count of 4 leaves the flags `ShaderResource`
unchanged, and `create2DMS` builds a texture with these flags and one mip level. -/
theorem C18_bind_flags_changed_only_by_policy_witness :
    ((4 : Nat) ≠ sampleEnv.kMaxPossible ∨ true = false) ∧
    updateBindFlags sampleEnv 0x10 true 4 = 0x10 ∧
    sampleEnv.kMaxPossible ≠ 1 ∧
    (Texture.create2DMS sampleEnv 300 200 0 4 1 0x10).pTexture.mMipLevels = 1 :=
  ⟨Or.inl (by decide),
    (C18_bind_flags_changed_only_by_policy sampleEnv 0x10).1 true 4 (Or.inl (by decide)),
    by decide,
    ((C18_bind_flags_changed_only_by_policy sampleEnv 0x10).2.2.2 300 200 0 4 1).2.2
      (by decide)⟩

/-- C19, as stated, fails: for a sentinel-resolved texture of width 4294967295
and height 1 in a format of 4 x 4 blocks the recorded mip count is 32, but
`align_to(4, 4294967295)` wraps around to 0, the image extent is 0 x 4 x 1, and
`initResource` requests `min(32, getMaxMipCount(extent)) = 3` levels. -/
theorem C19_counterexample :
    (Texture.Texture blockEnv 4294967295 1 1 1 blockEnv.kMaxPossible 1 0 TextureType.Texture2D
      0).mMipLevels = 32 ∧
    (initResourceImageInfo blockEnv
      (Texture.Texture blockEnv 4294967295 1 1 1 blockEnv.kMaxPossible 1 0
        TextureType.Texture2D 0) none).extent = { width := 0, height := 4, depth := 1 } ∧
    (initResourceImageInfo blockEnv
      (Texture.Texture blockEnv 4294967295 1 1 1 blockEnv.kMaxPossible 1 0
        TextureType.Texture2D 0) none).mipLevels = 3 := by
  have hrec : (Texture.Texture blockEnv 4294967295 1 1 1 blockEnv.kMaxPossible 1 0
      TextureType.Texture2D 0).mMipLevels = 32 := by
    have hscan : ∀ i, (_BitScanReverse i (4294967295 ||| 1 ||| 1)).2 = 31 := fun _ => rfl
    rw [ctor_mipLevels_scan, hscan]
    norm_num [wrap32]
  have hext : (initResourceImageInfo blockEnv
      (Texture.Texture blockEnv 4294967295 1 1 1 blockEnv.kMaxPossible 1 0
        TextureType.Texture2D 0) none).extent = { width := 0, height := 4, depth := 1 } := by
    rw [initResourceImageInfo_extent]
    have h1 : blockEnv.align_to (blockEnv.getFormatWidthCompressionRatio 0) 4294967295 = 0 := by
      decide
    have h2 : blockEnv.align_to (blockEnv.getFormatHeightCompressionRatio 0) 1 = 4 := by
      decide
    exact congrArg₂ (fun w h => ({ width := w, height := h, depth := 1 } : VkExtent3D)) h1 h2
  refine ⟨hrec, hext, ?_⟩
  have hmax : max (max 0 4) 1 = 4 := by norm_num
  have hwrap : wrap32 (1 + 2) = 3 := by norm_num [wrap32]
  rw [initResourceImageInfo_mipLevels, hext, hrec, getMaxMipCount_mk, blockEnv_log2Float, hmax,
    log2FloatIEEE_four, hwrap]
  norm_num

/-- C19, amended: the mip-level count that `Texture::initResource` requests is
`min(mMipLevels, getMaxMipCount(extent))`, so it exceeds neither the recorded count
nor the maximum of the image extent; and for a texture whose count the
constructor resolved from the sentinel (32-bit dimensions, not all zero) it
equals the recorded count whenever rounding the width and the height up to the
compression block does not wrap around, that is whenever the aligned 32-bit
values are not below the originals.  The logarithm of `getMaxMipCount` is the
single-precision one. -/
theorem C19_requested_mip_levels (env : Env) (t : Texture) (pData : Option Nat) :
    (initResourceImageInfo env t pData).mipLevels =
      min t.mMipLevels (getMaxMipCount env (initResourceImageInfo env t pData).extent) ∧
    (initResourceImageInfo env t pData).mipLevels ≤ t.mMipLevels ∧
    (initResourceImageInfo env t pData).mipLevels ≤
      getMaxMipCount env (initResourceImageInfo env t pData).extent ∧
    (∀ (width height depth arraySize sampleCount format bindFlags : Nat) (type : TextureType),
      width < 2 ^ 32 → height < 2 ^ 32 → depth < 2 ^ 32 →
      ¬(width = 0 ∧ height = 0 ∧ depth = 0) →
      width ≤ env.align_to (env.getFormatWidthCompressionRatio format) width →
      env.align_to (env.getFormatWidthCompressionRatio format) width < 2 ^ 32 →
      height ≤ env.align_to (env.getFormatHeightCompressionRatio format) height →
      env.align_to (env.getFormatHeightCompressionRatio format) height < 2 ^ 32 →
      (initResourceImageInfo { env with log2Float := log2FloatIEEE }
        (Texture.Texture env width height depth arraySize env.kMaxPossible sampleCount format
          type bindFlags) pData).mipLevels =
      (Texture.Texture env width height depth arraySize env.kMaxPossible sampleCount format
        type bindFlags).mMipLevels) := by
  have hmin := initResourceImageInfo_mipLevels env t pData
  refine ⟨hmin, ?_, ?_, ?_⟩
  · rw [hmin]
    exact Nat.min_le_left _ _
  · rw [hmin]
    exact Nat.min_le_right _ _
  · intro width height depth arraySize sampleCount format bindFlags type hw hh hd hne
      haw haw32 hah hah32
    have hM0 : max (max (env.align_to (env.getFormatWidthCompressionRatio format) width)
        (env.align_to (env.getFormatHeightCompressionRatio format) height)) depth ≠ 0 := by
      omega
    have hM32 : max (max (env.align_to (env.getFormatWidthCompressionRatio format) width)
        (env.align_to (env.getFormatHeightCompressionRatio format) height)) depth < 2 ^ 32 := by
      omega
    obtain ⟨hlog, hwrap⟩ := log2FloatIEEE_bounds hM0 hM32
    exact requested_eq_recorded { env with log2Float := log2FloatIEEE } pData width height depth
      arraySize sampleCount format bindFlags type hw hh hd hne haw hah hlog hwrap

/-- Witness for C19: a 300 x 200 texture created with the sentinel; the recorded
count 9 is the count requested for the image. -/
theorem C19_requested_mip_levels_witness :
    (300 ≤ sampleEnv.align_to (sampleEnv.getFormatWidthCompressionRatio 0) 300 ∧
      200 ≤ sampleEnv.align_to (sampleEnv.getFormatHeightCompressionRatio 0) 200) ∧
    (initResourceImageInfo { sampleEnv with log2Float := log2FloatIEEE }
      (Texture.Texture sampleEnv 300 200 1 1 sampleEnv.kMaxPossible 1 0 TextureType.Texture2D
        0x50) (some 4096)).mipLevels =
    (Texture.Texture sampleEnv 300 200 1 1 sampleEnv.kMaxPossible 1 0 TextureType.Texture2D
      0x50).mMipLevels :=
  ⟨⟨by decide, by decide⟩,
    (C19_requested_mip_levels sampleEnv sampleTexture (some 4096)).2.2.2 300 200 1 1 1 0 0x50
      TextureType.Texture2D (by decide) (by decide) (by decide) (by decide) (by decide)
      (by decide) (by decide) (by decide)⟩

end Falcor
